import Mathlib

/-!
# spacetravel: a verification development

A shallow embedding of the page handlers of the spacetravel console
(`src/pages/*/*.jsx`) and of its route table (`src/App.jsx`), and the properties
its specification states about them.

Conventions of the embedding.

* A React component's state is a structure; a handler is a function from the
  state of the render it closes over to the state after its `set…` calls, paired
  with the list of externally visible effects it performed, in order.
* The result of an awaited API call and the answer to a `window.confirm` prompt
  are inputs of the handler.
* `console.log` / `console.error` calls are not recorded.
* What the browser lets a form submit is modelled where a property depends on it:
  the constraint validation of the capacity input (`NumberInput.allows`).
* JavaScript strings are modelled by `String` (sequences of code points), and
  JavaScript numbers by `JSNumber` (IEEE-754 doubles, written exactly).
* The routes are matched the way `react-router-dom` (version 6) matches a path
  against a pattern; its percent-decoding of the path and of the parameters is a
  parameter of the embedding.
-/

set_option autoImplicit false

namespace SpaceTravel

/-! ## JavaScript numbers -/

/-- A JavaScript number: `NaN`, `±Infinity`, or the finite value
`(-1)^neg · m · 2^e` (so `fin true 0 0` is `-0`). -/
inductive JSNumber where
  | nan
  | inf (neg : Bool)
  | fin (neg : Bool) (m : Nat) (e : Int)
  deriving DecidableEq, Repr

namespace JSNumber

/-- The predicate `Number.isNaN`. -/
def isNaN : JSNumber → Bool
  | nan => true
  | _ => false

/-- The comparison `x <= 0`. -/
def leZero : JSNumber → Bool
  | nan => false
  | inf neg => neg
  | fin neg m _ => neg || m == 0

/-- The comparison `x > 0`. -/
def gtZero : JSNumber → Bool
  | nan => false
  | inf neg => !neg
  | fin neg m _ => !neg && m != 0

/-- Strict equality `x === y` of two numbers: `NaN` equals nothing, `+0 === -0`,
and finite values are compared by value. -/
def strictEq : JSNumber → JSNumber → Bool
  | inf a, inf b => a == b
  | fin a m e, fin b n f =>
      (m == 0 && n == 0) ||
        (a == b && m * 2 ^ (e - min e f).toNat == n * 2 ^ (f - min e f).toNat)
  | _, _ => false

/-- The predicate `Number.isInteger`. -/
def isInteger : JSNumber → Bool
  | fin _ m e => 0 ≤ e || m % 2 ^ (-e).toNat == 0
  | _ => false

/-- The value of a number that is an integer. -/
def toInt? : JSNumber → Option Int
  | fin neg m e =>
      if 0 ≤ e then some ((if neg then -1 else 1) * (m * 2 ^ e.toNat : Nat))
      else if m % 2 ^ (-e).toNat = 0 then
        some ((if neg then -1 else 1) * (m / 2 ^ (-e).toNat : Nat))
      else none
  | _ => none

end JSNumber

/-- Quotient `n / d` rounded to the nearest natural number, ties to even. -/
def roundHalfEven (n d : Nat) : Nat :=
  let q := n / d
  let r := n % d
  if 2 * r < d then q
  else if d < 2 * r then q + 1
  else if q % 2 = 0 then q else q + 1

/-- Number of binary digits of `n`, by at most `fuel` halvings. -/
def bitLength : Nat → Nat → Nat
  | 0, _ => 0
  | fuel + 1, n => if n = 0 then 0 else bitLength fuel (n / 2) + 1

/-- Strips the factors of two of a mantissa into the exponent. -/
def stripTwos : Nat → Nat → Int → Nat × Int
  | 0, m, e => (m, e)
  | fuel + 1, m, e => if m ≠ 0 ∧ m % 2 = 0 then stripTwos fuel (m / 2) (e + 1) else (m, e)

/-- The double nearest to `(-1)^neg · n / d` (round to nearest, ties to even, with
gradual underflow and overflow to infinity); `d` is positive. -/
def toDouble (neg : Bool) (n d : Nat) : JSNumber :=
  if n = 0 then .fin neg 0 0
  else
    let k0 : Int := (bitLength n n : Int) - (bitLength d d : Int)
    -- `k` is the integer with `2^k ≤ n/d < 2^(k+1)`
    let k : Int := if d * 2 ^ k0.toNat ≤ n * 2 ^ (-k0).toNat then k0 else k0 - 1
    let e : Int := max (k - 52) (-1074)
    let m : Nat := roundHalfEven (n * 2 ^ (-e).toNat) (d * 2 ^ e.toNat)
    -- `m ≤ 2^53`, so `m · 2^e` reaches `2^1024` exactly in these two cases
    if 971 < e ∨ (e = 971 ∧ 2 ^ 53 ≤ m) then .inf neg
    else
      let r := stripTwos 64 m e
      if r.1 = 0 then .fin neg 0 0 else .fin neg r.1 r.2

/-! ## JavaScript strings -/

/-- The characters `String.prototype.trim` removes and `Number` skips: ECMAScript
`WhiteSpace` and `LineTerminator`. -/
def isStrWhiteSpaceChar (c : Char) : Bool :=
  let n := c.toNat
  n == 0x9 || n == 0xA || n == 0xB || n == 0xC || n == 0xD || n == 0x20 || n == 0xA0 ||
    n == 0x1680 || (0x2000 ≤ n && n ≤ 0x200A) || n == 0x2028 || n == 0x2029 ||
    n == 0x202F || n == 0x205F || n == 0x3000 || n == 0xFEFF

/-- Trimming of a character list at both ends. -/
def trimChars (cs : List Char) : List Char :=
  ((cs.dropWhile isStrWhiteSpaceChar).reverse.dropWhile isStrWhiteSpaceChar).reverse

/-- The method `String.prototype.trim`. -/
def trim (s : String) : String := ⟨trimChars s.data⟩

/-- The method `String.prototype.startsWith`. -/
def startsWith (s p : String) : Bool := p.data.isPrefixOf s.data

/-- Truthiness of a string: every string but the empty one. -/
def truthy (s : String) : Bool := s.data != []

/-! ## `Number(string)` -/

/-- Value of a digit character in the given radix. -/
def digitValue (radix : Nat) (c : Char) : Option Nat :=
  let n := c.toNat
  let v : Option Nat :=
    if 48 ≤ n ∧ n ≤ 57 then some (n - 48)
    else if 97 ≤ n ∧ n ≤ 102 then some (n - 87)
    else if 65 ≤ n ∧ n ≤ 70 then some (n - 55)
    else none
  v.bind fun d => if d < radix then some d else none

/-- Splits off the longest leading run of digits of the radix. -/
def takeDigits (radix : Nat) : List Char → List Nat × List Char
  | [] => ([], [])
  | c :: cs =>
      match digitValue radix c with
      | some d => let r := takeDigits radix cs; (d :: r.1, r.2)
      | none => ([], c :: cs)

/-- Value of a digit sequence, most significant digit first. -/
def digitsValue (radix : Nat) (ds : List Nat) : Nat :=
  ds.foldl (fun acc d => radix * acc + d) 0

/-- A literal made of one or more digits of the radix and nothing else. -/
def parseRadix (radix : Nat) (cs : List Char) : JSNumber :=
  match takeDigits radix cs with
  | (d :: ds, []) => toDouble false (digitsValue radix (d :: ds)) 1
  | _ => .nan

/-- The optional `ExponentPart` that ends a decimal literal: nothing, or `e`/`E`,
an optional sign and one or more digits. -/
def parseExponent : List Char → Option Int
  | [] => some 0
  | c :: cs =>
      if c = 'e' ∨ c = 'E' then
        let (neg, ds) : Bool × List Char :=
          match cs with
          | '+' :: r => (false, r)
          | '-' :: r => (true, r)
          | r => (false, r)
        match takeDigits 10 ds with
        | (d :: t, []) =>
            let v : Int := digitsValue 10 (d :: t)
            some (if neg then -v else v)
        | _ => none
      else none

/-- A `StrUnsignedDecimalLiteral`, with the sign already read. -/
def parseUnsignedDecimal (neg : Bool) (cs : List Char) : JSNumber :=
  if cs = "Infinity".data then .inf neg
  else
    let (ip, r1) := takeDigits 10 cs
    let (fp, r2, ok) : List Nat × List Char × Bool :=
      match r1 with
      | '.' :: r =>
          let (f, r') := takeDigits 10 r
          (f, r', !(ip.isEmpty && f.isEmpty))
      | r => ([], r, !ip.isEmpty)
    if ok then
      match parseExponent r2 with
      | some x =>
          let mant := digitsValue 10 (ip ++ fp)
          let ex : Int := x - fp.length
          toDouble neg (mant * 10 ^ ex.toNat) (10 ^ (-ex).toNat)
      | none => .nan
    else .nan

/-- A `StrNumericLiteral`: a signed decimal literal, or an unsigned binary, octal or
hexadecimal integer literal. -/
def parseNumeric : List Char → JSNumber
  | '+' :: cs => parseUnsignedDecimal false cs
  | '-' :: cs => parseUnsignedDecimal true cs
  | '0' :: c :: cs =>
      if c = 'x' ∨ c = 'X' then parseRadix 16 cs
      else if c = 'o' ∨ c = 'O' then parseRadix 8 cs
      else if c = 'b' ∨ c = 'B' then parseRadix 2 cs
      else parseUnsignedDecimal false ('0' :: c :: cs)
  | cs => parseUnsignedDecimal false cs

/-- The conversion `Number(s)` of a string: surrounding white space is skipped, the
empty string is `+0`, and a string that is not a numeric literal is `NaN`. -/
def Number (s : String) : JSNumber :=
  match trimChars s.data with
  | [] => .fin false 0 0
  | cs => parseNumeric cs

/-- The global `isNaN(s)` applied to a string. -/
def isNaN (s : String) : Bool := (Number s).isNaN

/-! ## Data model and the API client's interface -/

/-- A spacecraft as the API returns it. -/
structure Spacecraft where
  id : String
  name : String
  capacity : JSNumber
  description : String
  pictureUrl : Option String
  currentLocation : JSNumber
  deriving DecidableEq, Repr

/-- A planet as the API returns it. -/
structure Planet where
  id : JSNumber
  name : String
  currentPopulation : JSNumber
  pictureUrl : String
  deriving DecidableEq, Repr

/-- The object `{ isError, data }` every API operation resolves with; `data` is
`none` when the property is `null` or `undefined`. -/
structure ApiResponse (α : Type) where
  isError : Bool
  data : Option α
  deriving DecidableEq, Repr

/-- How an awaited API call settles: it resolves with a response, or it rejects
(a transport failure, which `await` rethrows). -/
inductive ApiOutcome (α : Type) where
  | resolved (response : ApiResponse α)
  | rejected
  deriving DecidableEq, Repr

/-- The call failed: it rejected, or it resolved with `isError` set. -/
def ApiOutcome.failed {α : Type} : ApiOutcome α → Bool
  | .resolved response => response.isError
  | .rejected => true

/-- The `data` object of a `sendSpacecraftToPlanet` response, read for its
`message` property. -/
structure TransferData where
  message : Option String
  deriving DecidableEq, Repr

/-- The argument of `SpaceTravelApi.buildSpacecraft`. -/
structure BuildPayload where
  name : String
  capacity : JSNumber
  description : String
  pictureUrl : Option String
  deriving DecidableEq, Repr

/-- What a handler does besides setting state, in the order it does it. -/
inductive Effect where
  | preventDefault
  | alert (message : String)
  | confirm (message : String)
  | navigate (path : String)
  | getSpacecrafts
  | getSpacecraftById (id : String)
  | buildSpacecraft (payload : BuildPayload)
  | destroySpacecraftById (id : String)
  | getPlanets
  | sendSpacecraftToPlanet (spacecraftId : String) (targetPlanetId : JSNumber)
  deriving DecidableEq, Repr

namespace Effect

/-- The effect is a call of the API client. -/
def isApiCall : Effect → Bool
  | getSpacecrafts | getSpacecraftById _ | buildSpacecraft _ | destroySpacecraftById _
  | getPlanets | sendSpacecraftToPlanet _ _ => true
  | _ => false

/-- The effect is a call of `buildSpacecraft`. -/
def isBuild : Effect → Bool
  | buildSpacecraft _ => true
  | _ => false

/-- The effect is a call of `destroySpacecraftById`. -/
def isDestroy : Effect → Bool
  | destroySpacecraftById _ => true
  | _ => false

/-- The effect is a call of `navigate`. -/
def isNavigate : Effect → Bool
  | navigate _ => true
  | _ => false

/-- The effect is an `alert`. -/
def isAlert : Effect → Bool
  | alert _ => true
  | _ => false

end Effect

/-- Truthiness of a state variable that is `null` or a string. -/
def truthyOpt : Option String → Bool
  | some s => truthy s
  | none => false

/-! ## ConstructionPage.jsx -/

namespace ConstructionPage

/-- One property of the `errors` object. -/
inductive Slot where
  | absent
  | undefined
  | message (text : String)
  deriving DecidableEq, Repr

/-- Truthiness of `errors.field`. -/
def Slot.truthy : Slot → Bool
  | .message text => SpaceTravel.truthy text
  | _ => false

/-- The `errors` object: the four keys a handler ever writes. -/
structure Errors where
  name : Slot := .absent
  capacity : Slot := .absent
  description : Slot := .absent
  pictureUrl : Slot := .absent
  deriving DecidableEq, Repr

/-- The list `Object.keys(errors)`. -/
def Errors.keys (e : Errors) : List String :=
  (if e.name = .absent then [] else ["name"]) ++
  (if e.capacity = .absent then [] else ["capacity"]) ++
  (if e.description = .absent then [] else ["description"]) ++
  (if e.pictureUrl = .absent then [] else ["pictureUrl"])

/-- The component's state variables. -/
structure State where
  name : String := ""
  capacity : String := ""
  description : String := ""
  pictureUrl : String := ""
  isSubmitting : Bool := false
  errors : Errors := {}
  deriving DecidableEq, Repr

/-- The function `validateForm`. -/
def validateForm (s : State) : Errors :=
  let newErrors : Errors := {}
  let newErrors :=
    if !truthy (trim s.name) then
      { newErrors with name := .message "Spacecraft name is required" }
    else newErrors
  let newErrors :=
    if !truthy s.capacity then
      { newErrors with capacity := .message "Capacity is required" }
    else if isNaN s.capacity || (Number s.capacity).leZero then
      { newErrors with capacity := .message "Capacity must be a positive number" }
    else newErrors
  let newErrors :=
    if !truthy (trim s.description) then
      { newErrors with description := .message "Description is required" }
    else newErrors
  let newErrors :=
    if truthy (trim s.pictureUrl) && !startsWith s.pictureUrl "http" then
      { newErrors with pictureUrl := .message "Picture URL must start with http:// or https://" }
    else newErrors
  newErrors

/-- The argument `handleSubmit` passes to `buildSpacecraft`. -/
def payload (s : State) : BuildPayload :=
  { name := trim s.name
    capacity := Number s.capacity
    description := trim s.description
    pictureUrl := if truthy (trim s.pictureUrl) then some (trim s.pictureUrl) else none }

/-- The handler `handleSubmit`; `api` is how the `buildSpacecraft` call settles if
it is made. -/
def handleSubmit (s : State) (api : ApiOutcome Unit) : State × List Effect :=
  let validationErrors := validateForm s
  if validationErrors.keys.length > 0 then
    ({ s with errors := validationErrors }, [.preventDefault])
  else
    let s := { s with errors := {} }
    let s := { s with isSubmitting := true }
    let call := Effect.buildSpacecraft (payload s)
    match api with
    | .resolved response =>
        if response.isError then
          ({ s with isSubmitting := false },
            [.preventDefault, call, .alert "Failed to build spacecraft. Please try again."])
        else
          (s, [.preventDefault, call, .alert (s.name ++ " has been successfully built!"),
            .navigate "/spacecrafts"])
    | .rejected =>
        ({ s with isSubmitting := false },
          [.preventDefault, call, .alert "An unexpected error occurred."])

/-- The handler `handleNameChange`; `value` is `e.target.value`. -/
def handleNameChange (s : State) (value : String) : State :=
  let s' := { s with name := value }
  if s.errors.name.truthy then { s' with errors := { s.errors with name := .undefined } } else s'

/-- The handler `handleCapacityChange`. -/
def handleCapacityChange (s : State) (value : String) : State :=
  let s' := { s with capacity := value }
  if s.errors.capacity.truthy then
    { s' with errors := { s.errors with capacity := .undefined } }
  else s'

/-- The handler `handleDescriptionChange`. -/
def handleDescriptionChange (s : State) (value : String) : State :=
  let s' := { s with description := value }
  if s.errors.description.truthy then
    { s' with errors := { s.errors with description := .undefined } }
  else s'

/-- The handler `handlePictureUrlChange`. -/
def handlePictureUrlChange (s : State) (value : String) : State :=
  let s' := { s with pictureUrl := value }
  if s.errors.pictureUrl.truthy then
    { s' with errors := { s.errors with pictureUrl := .undefined } }
  else s'

/-- The attributes of an `<input type="number">` that constrain what can be
submitted: `min`, and the step, which is 1 when the input has no `step`. -/
structure NumberInput where
  min : Int
  step : Nat
  deriving DecidableEq, Repr

/-- The capacity field, `<input type="number" id="capacity" … min="1">`: no `step`,
no `max`, not `required`. -/
def capacityInput : NumberInput := { min := 1, step := 1 }

/-- A valid floating-point number of HTML: an optional `-`, then digits, or a dot and
digits, or both, then optionally an exponent. It is what the value of a number input
holds when it is not empty. -/
def isValidFloatingPointNumber (value : String) : Bool :=
  let unsigned : List Char :=
    match value.data with
    | '-' :: rest => rest
    | rest => rest
  let whole := takeDigits 10 unsigned
  match whole.2 with
  | '.' :: rest =>
      let fraction := takeDigits 10 rest
      !fraction.1.isEmpty && (parseExponent fraction.2).isSome
  | rest => !whole.1.isEmpty && (parseExponent rest).isSome

/-- The browser's constraint validation of a number input, which it runs before it
lets the form fire `submit` (the form has no `noValidate`). An empty value has
nothing to check. Any other value is a valid floating-point number that reads as a
finite number (the input replaces any other text by the empty value), must not be
below `min` (range underflow) and must be a whole number of steps above `min` (step
mismatch); `min` and the step being whole numbers, only whole numbers are on a step.
On a valid floating-point number the browser reads the same number as `Number`. -/
def NumberInput.allows (input : NumberInput) (value : String) : Bool :=
  value == "" ||
    (isValidFloatingPointNumber value &&
      match (Number value).toInt? with
      | some n => decide (input.min ≤ n) && (n - input.min) % (input.step : Int) == 0
      | none => false)

/-- The name is empty after trimming. -/
def nameBlank (s : State) : Prop := trim s.name = ""

/-- The capacity is empty, non-numeric or `<= 0`. -/
def capacityBad (s : State) : Prop :=
  s.capacity = "" ∨ isNaN s.capacity = true ∨ (Number s.capacity).leZero = true

/-- The description is empty after trimming. -/
def descriptionBlank (s : State) : Prop := trim s.description = ""

/-- The picture URL is non-blank and does not start with `http`. -/
def pictureUrlBad (s : State) : Prop :=
  trim s.pictureUrl ≠ "" ∧ startsWith s.pictureUrl "http" = false

instance (s : State) : Decidable (nameBlank s) := by unfold nameBlank; infer_instance
instance (s : State) : Decidable (capacityBad s) := by unfold capacityBad; infer_instance
instance (s : State) : Decidable (descriptionBlank s) := by unfold descriptionBlank; infer_instance
instance (s : State) : Decidable (pictureUrlBad s) := by unfold pictureUrlBad; infer_instance

end ConstructionPage

/-! ## SpacecraftsPage.jsx -/

namespace SpacecraftsPage

/-- The component's state variables, with their initial values. -/
structure State where
  spacecrafts : Option (List Spacecraft) := none
  isLoading : Bool := true
  error : Option String := none
  deriving DecidableEq, Repr

/-- The function `fetchSpacecrafts` run by the mount effect; `api` is how the
`getSpacecrafts` call settles. -/
def fetchSpacecrafts (s : State) (api : ApiOutcome (List Spacecraft)) : State × List Effect :=
  let s := { s with isLoading := true }
  let s :=
    match api with
    | .resolved response =>
        if response.isError then
          { s with error := some "Failed to load spacecraft. Please try again.",
                   spacecrafts := none }
        else { s with spacecrafts := response.data, error := none }
    | .rejected => { s with error := some "An unexpected error occurred.", spacecrafts := none }
  ({ s with isLoading := false }, [.getSpacecrafts])

/-- The handler `handleDestroy(id, name)`; `confirmed` is the answer to the prompt
and `api` is how the `destroySpacecraftById` call settles if it is made. Filtering a
`null` list throws inside the `try`, which the `catch` reports. -/
def handleDestroy (s : State) (id name : String) (confirmed : Bool) (api : ApiOutcome Unit) :
    State × List Effect :=
  let prompt := Effect.confirm
    ("Are you sure you want to destroy " ++ name ++ "? This action cannot be undone.")
  if !confirmed then (s, [prompt])
  else
    let call := Effect.destroySpacecraftById id
    match api with
    | .resolved response =>
        if response.isError then
          (s, [prompt, call, .alert "Failed to destroy spacecraft. Please try again."])
        else
          match s.spacecrafts with
          | some list =>
              ({ s with spacecrafts := some (list.filter fun spacecraft => spacecraft.id != id) },
                [prompt, call, .alert (name ++ " has been destroyed successfully.")])
          | none => (s, [prompt, call, .alert "An unexpected error occurred."])
    | .rejected => (s, [prompt, call, .alert "An unexpected error occurred."])

/-- The handler `handleViewDetails`. -/
def handleViewDetails (s : State) (id : String) : State × List Effect :=
  (s, [.navigate ("/spacecraft/" ++ id)])

/-- Which of the component's four returns a render takes. -/
inductive View where
  | loading
  | error (message : String)
  | empty
  | fleet (spacecrafts : List Spacecraft)
  deriving DecidableEq, Repr

/-- The conditional rendering of the component. -/
def render (s : State) : View :=
  if s.isLoading then .loading
  else if truthyOpt s.error then .error (s.error.getD "")
  else
    match s.spacecrafts with
    | some (x :: xs) => .fleet (x :: xs)
    | _ => .empty

/-- The part of `handleDestroy` that runs once the awaited call has settled. It runs
in the scope of the render in which Destroy was clicked, so the `spacecrafts` it
filters is the list of that render (`clicked`), while its `setSpacecrafts` replaces
the list in the state the component has by then (`current`). -/
def handleDestroySettle (clicked current : State) (id name : String)
    (api : ApiOutcome Unit) : State × List Effect :=
  match api with
  | .resolved response =>
      if response.isError then
        (current, [.alert "Failed to destroy spacecraft. Please try again."])
      else
        match clicked.spacecrafts with
        | some list =>
            ({ current with
                spacecrafts := some (list.filter fun spacecraft => spacecraft.id != id) },
              [.alert (name ++ " has been destroyed successfully.")])
        | none => (current, [.alert "An unexpected error occurred."])
  | .rejected => (current, [.alert "An unexpected error occurred."])

/-- A `destroySpacecraftById` call not yet settled: the state of the render the
handler was started from, and the handler's arguments. -/
structure PendingDestroy where
  clicked : State
  id : String
  name : String
  deriving DecidableEq, Repr

/-- A mounted fleet list: its state and the destroy calls in flight, oldest first. -/
structure Mounted where
  state : State
  pending : List PendingDestroy
  deriving DecidableEq, Repr

/-- What happens to a mounted fleet list: a Destroy button of the current render is
clicked and the prompt answered, or the `index`-th call in flight settles. -/
inductive Event where
  | destroy (id name : String) (confirmed : Bool)
  | settle (index : Nat) (api : ApiOutcome Unit)
  deriving DecidableEq, Repr

/-- One event. The Destroy buttons are never disabled, so a click starts a handler
whatever is in flight; the handler closes over the state of the current render. -/
def step (v : Mounted) : Event → Mounted × List Effect
  | .destroy id name confirmed =>
      let prompt := Effect.confirm
        ("Are you sure you want to destroy " ++ name ++ "? This action cannot be undone.")
      if !confirmed then (v, [prompt])
      else
        ({ v with pending := v.pending ++ [{ clicked := v.state, id := id, name := name }] },
          [prompt, .destroySpacecraftById id])
  | .settle index api =>
      match v.pending[index]? with
      | some call =>
          let r := handleDestroySettle call.clicked v.state call.id call.name api
          ({ state := r.1, pending := v.pending.eraseIdx index }, r.2)
      | none => (v, [])

/-- The component after a sequence of events. -/
def run (v : Mounted) : List Event → Mounted
  | [] => v
  | event :: rest => run (step v event).1 rest

end SpacecraftsPage

/-! ## SpacecraftPage.jsx -/

namespace SpacecraftPage

/-- The component's state variables, with their initial values. -/
structure State where
  spacecraft : Option Spacecraft := none
  isLoading : Bool := true
  error : Option String := none
  deriving DecidableEq, Repr

/-- The part of `fetchSpacecraft` that runs when the effect fires, up to the
`await`: two `set…` calls and the `getSpacecraftById({ id })` call. -/
def fetchSpacecraftStart (s : State) (id : String) : State × List Effect :=
  ({ s with isLoading := true, error := none }, [.getSpacecraftById id])

/-- The part of `fetchSpacecraft` that runs once the awaited call has settled, on
the state the component has by then. -/
def fetchSpacecraftSettle (s : State) (api : ApiOutcome Spacecraft) : State :=
  let s :=
    match api with
    | .resolved response =>
        if response.isError then
          { s with error := some "Failed to load spacecraft details.", spacecraft := none }
        else
          match response.data with
          | none => { s with error := some "Spacecraft not found.", spacecraft := none }
          | some data => { s with spacecraft := some data, error := none }
    | .rejected => { s with error := some "An unexpected error occurred.", spacecraft := none }
  { s with isLoading := false }

/-- The function `fetchSpacecraft` run from start to end with nothing in between. -/
def fetchSpacecraft (s : State) (id : String) (api : ApiOutcome Spacecraft) :
    State × List Effect :=
  let r := fetchSpacecraftStart s id
  (fetchSpacecraftSettle r.1 api, r.2)

/-- What running a handler of this component gives: its new state and effects, or
an exception no `try` encloses. -/
inductive Result where
  | done (state : State) (effects : List Effect)
  | typeError
  deriving DecidableEq, Repr

/-- The handler `handleDestroy`; `id` is the route parameter. Reading
`spacecraft.name` of a `null` spacecraft throws before the prompt is shown. -/
def handleDestroy (s : State) (id : String) (confirmed : Bool) (api : ApiOutcome Unit) :
    Result :=
  match s.spacecraft with
  | none => .typeError
  | some spacecraft =>
      let prompt := Effect.confirm
        ("Are you sure you want to destroy " ++ spacecraft.name ++
          "? This action cannot be undone.")
      if !confirmed then .done s [prompt]
      else
        let call := Effect.destroySpacecraftById id
        match api with
        | .resolved response =>
            if response.isError then
              .done s [prompt, call, .alert "Failed to destroy spacecraft."]
            else
              .done s [prompt, call, .alert (spacecraft.name ++ " has been destroyed."),
                .navigate "/spacecrafts"]
        | .rejected => .done s [prompt, call, .alert "An unexpected error occurred."]

/-- The handler `handleBack`. -/
def handleBack (s : State) : State × List Effect :=
  (s, [.navigate "/spacecrafts"])

/-- Which of the component's three returns a render takes; the error return shows
a heading and a paragraph. -/
inductive View where
  | loading
  | error (heading text : String)
  | detail (spacecraft : Spacecraft)
  deriving DecidableEq, Repr

/-- The conditional rendering of the component; `id` is the route parameter. -/
def render (s : State) (id : String) : View :=
  if s.isLoading then .loading
  else if truthyOpt s.error then
    .error (s.error.getD "") "Unable to load spacecraft details. Please try again."
  else
    match s.spacecraft with
    | none => .error "Spacecraft Not Found" ("No spacecraft exists with ID: " ++ id)
    | some spacecraft => .detail spacecraft

/-- A mounted detail component: the route parameter of its current render, its
state, and the ids of the `getSpacecraftById` calls not yet settled, oldest first. -/
structure Mounted where
  id : String
  state : State
  pending : List String
  deriving DecidableEq, Repr

/-- What happens to a mounted component: the router renders it with another `:id`,
or the `index`-th pending call settles. -/
inductive Event where
  | routeChange (id : String)
  | settle (index : Nat) (api : ApiOutcome Spacecraft)
  deriving DecidableEq, Repr

/-- The first render under `/spacecraft/:id`: the effect fires once. -/
def mount (id : String) : Mounted × List Effect :=
  let r := fetchSpacecraftStart {} id
  ({ id := id, state := r.1, pending := [id] }, r.2)

/-- One event. The effect has the dependency list `[id]`: it fires again exactly
when the route parameter differs from that of the previous render. The
continuation of a settled call runs on the component's current state; the effect
returns no clean-up, so no pending call is ever dropped. -/
def step (v : Mounted) : Event → Mounted × List Effect
  | .routeChange id =>
      if id = v.id then (v, [])
      else
        let r := fetchSpacecraftStart v.state id
        ({ id := id, state := r.1, pending := v.pending ++ [id] }, r.2)
  | .settle index api =>
      if index < v.pending.length then
        ({ v with state := fetchSpacecraftSettle v.state api,
                  pending := v.pending.eraseIdx index }, [])
      else (v, [])

/-- The component after a sequence of events. -/
def run (v : Mounted) : List Event → Mounted
  | [] => v
  | event :: rest => run (step v event).1 rest

end SpacecraftPage

/-! ## PlanetsPage.jsx -/

namespace PlanetsPage

/-- The component's state variables, with their initial values. -/
structure State where
  planets : Option (List Planet) := none
  spacecrafts : Option (List Spacecraft) := none
  isLoading : Bool := true
  error : Option String := none
  selectedSpacecraftId : String := ""
  selectedPlanetId : String := ""
  isTransferring : Bool := false
  deriving DecidableEq, Repr

/-- The function `fetchData` run by the mount effect; the two arguments are how the
`getPlanets` and `getSpacecrafts` calls under `Promise.all` settle. -/
def fetchData (s : State) (planetsApi : ApiOutcome (List Planet))
    (spacecraftsApi : ApiOutcome (List Spacecraft)) : State × List Effect :=
  let s := { s with isLoading := true }
  let calls : List Effect := [.getPlanets, .getSpacecrafts]
  match planetsApi, spacecraftsApi with
  | .resolved planetsResponse, .resolved spacecraftsResponse =>
      if planetsResponse.isError || spacecraftsResponse.isError then
        ({ s with error := some "Failed to load data. Please try again.", isLoading := false },
          calls)
      else
        ({ s with planets := planetsResponse.data, spacecrafts := spacecraftsResponse.data,
                  isLoading := false }, calls)
  | _, _ => ({ s with error := some "An unexpected error occurred.", isLoading := false }, calls)

/-- The helper `getSpacecraftsAtPlanet`. -/
def getSpacecraftsAtPlanet (s : State) (planetId : JSNumber) : List Spacecraft :=
  match s.spacecrafts with
  | none => []
  | some list => list.filter fun spacecraft => spacecraft.currentLocation.strictEq planetId

/-- The planet cards of the main return: one card per planet, in list order, with
the result of `getSpacecraftsAtPlanet(planet.id)`, whose length the card shows as
the stationed count; no card while `planets` is `null`. -/
def planetCards (s : State) : List (Planet × List Spacecraft) :=
  match s.planets with
  | none => []
  | some list => list.map fun planet => (planet, getSpacecraftsAtPlanet s planet.id)

/-- The helper `getPlanetById`. -/
def getPlanetById (s : State) (planetId : JSNumber) : Option Planet :=
  match s.planets with
  | none => none
  | some list => list.find? fun planet => planet.id.strictEq planetId

/-- The helper `getSpacecraftById`. -/
def getSpacecraftById (s : State) (spacecraftId : String) : Option Spacecraft :=
  match s.spacecrafts with
  | none => none
  | some list => list.find? fun x => x.id == spacecraftId

/-- The handler `handleTransfer`; `confirmed` answers the prompt, `sendApi` is how
the `sendSpacecraftToPlanet` call settles, and the last two arguments are how the
re-fetches under `Promise.all` settle. Reading `message` of an absent `data` throws
inside the `try`. -/
def handleTransfer (s : State) (confirmed : Bool) (sendApi : ApiOutcome TransferData)
    (planetsApi : ApiOutcome (List Planet)) (spacecraftsApi : ApiOutcome (List Spacecraft)) :
    State × List Effect :=
  if !truthy s.selectedSpacecraftId then
    (s, [.preventDefault, .alert "Please select a spacecraft"])
  else if !truthy s.selectedPlanetId then
    (s, [.preventDefault, .alert "Please select a destination planet"])
  else
    match getSpacecraftById s s.selectedSpacecraftId,
      getPlanetById s (Number s.selectedPlanetId) with
    | some spacecraft, some targetPlanet =>
        if spacecraft.currentLocation.strictEq targetPlanet.id then
          (s, [.preventDefault,
            .alert (spacecraft.name ++ " is already on " ++ targetPlanet.name ++ "!")])
        else
          let prompt := Effect.confirm
            ("Send " ++ spacecraft.name ++ " to " ++ targetPlanet.name ++ "?")
          if !confirmed then (s, [.preventDefault, prompt])
          else
            let send := Effect.sendSpacecraftToPlanet s.selectedSpacecraftId
              (Number s.selectedPlanetId)
            let unexpected := Effect.alert "An unexpected error occurred."
            match sendApi with
            | .resolved response =>
                if response.isError then
                  match response.data with
                  | some data =>
                      let text :=
                        if truthyOpt data.message then data.message.getD "" else "Transfer failed"
                      ({ s with isTransferring := false }, [.preventDefault, prompt, send,
                        .alert text])
                  | none =>
                      ({ s with isTransferring := false }, [.preventDefault, prompt, send,
                        unexpected])
                else
                  match planetsApi, spacecraftsApi with
                  | .resolved planetsResponse, .resolved spacecraftsResponse =>
                      ({ s with planets := planetsResponse.data,
                                spacecrafts := spacecraftsResponse.data,
                                selectedSpacecraftId := "", selectedPlanetId := "",
                                isTransferring := false },
                        [.preventDefault, prompt, send, .getPlanets, .getSpacecrafts,
                          .alert "Transfer successful!"])
                  | _, _ =>
                      ({ s with isTransferring := false },
                        [.preventDefault, prompt, send, .getPlanets, .getSpacecrafts, unexpected])
            | .rejected =>
                ({ s with isTransferring := false }, [.preventDefault, prompt, send, unexpected])
    | _, _ => (s, [.preventDefault, .alert "Invalid selection"])

/-- The transfer form passes every check of `handleTransfer`: both selections are
made, they name the loaded `spacecraft` and `targetPlanet`, and the spacecraft is not
already on that planet. -/
def transferReady (s : State) (spacecraft : Spacecraft) (targetPlanet : Planet) : Prop :=
  s.selectedSpacecraftId ≠ "" ∧ s.selectedPlanetId ≠ "" ∧
  getSpacecraftById s s.selectedSpacecraftId = some spacecraft ∧
  getPlanetById s (Number s.selectedPlanetId) = some targetPlanet ∧
  spacecraft.currentLocation.strictEq targetPlanet.id = false

instance (s : State) (spacecraft : Spacecraft) (targetPlanet : Planet) :
    Decidable (transferReady s spacecraft targetPlanet) := by
  unfold transferReady; infer_instance

/-- Which of the component's three returns a render takes; the main return draws
from both lists. -/
inductive View where
  | loading
  | error (message : String)
  | main (planets : Option (List Planet)) (spacecrafts : Option (List Spacecraft))
  deriving DecidableEq, Repr

/-- The conditional rendering of the component. -/
def render (s : State) : View :=
  if s.isLoading then .loading
  else if truthyOpt s.error then .error (s.error.getD "")
  else .main s.planets s.spacecrafts

end PlanetsPage

/-! ## App.jsx -/

namespace App

/-- The element a route renders; the detail page is given `useParams().id`. -/
inductive Page where
  | homePage
  | spacecraftsPage
  | spacecraftPage (id : Option String)
  | constructionPage
  | planetsPage
  deriving DecidableEq, Repr

/-- The method `split("/")` on a character list. -/
def splitSlash : List Char → List (List Char)
  | [] => [[]]
  | c :: cs =>
      if c = '/' then [] :: splitSlash cs
      else
        match splitSlash cs with
        | [] => [[c]]
        | segment :: rest => (c :: segment) :: rest

/-- How the router's case-insensitive pattern compares characters: ASCII capitals
are folded to small letters, every other character stands for itself. -/
def foldCase (c : Char) : Char :=
  if 65 ≤ c.toNat ∧ c.toNat ≤ 90 then Char.ofNat (c.toNat + 32) else c

/-- One segment of a route pattern: literal text, or a `:name` parameter. -/
inductive Segment where
  | static (text : List Char)
  | param (name : String)
  deriving DecidableEq, Repr

/-- Reads a pattern segment. -/
def compileSegment : List Char → Segment
  | ':' :: name => .param ⟨name⟩
  | text => .static text

/-- The slash-separated pieces of a path or pattern body; an empty body has none. -/
def segments (body : List Char) : List (List Char) :=
  if body = [] then [] else splitSlash body

/-- Matches path segments against pattern segments one by one: literal text must agree
up to ASCII case, a parameter takes any non-empty segment. The result lists the
parameters, each decoded by the router (`decodeParam`). -/
def matchSegments (decodeParam : String → String) :
    List Segment → List (List Char) → Option (List (String × String))
  | [], [] => some []
  | .static text :: pattern, segment :: path =>
      if text.map foldCase = segment.map foldCase then
        matchSegments decodeParam pattern path
      else none
  | .param name :: pattern, segment :: path =>
      if segment = [] then none
      else
        (matchSegments decodeParam pattern path).map fun params =>
          (name, decodeParam ⟨segment⟩) :: params
  | _, _ => none

/-- The value of a hexadecimal digit. -/
def hexDigit (c : Char) : Option Nat :=
  if 48 ≤ c.toNat ∧ c.toNat ≤ 57 then some (c.toNat - 48)
  else if 65 ≤ c.toNat ∧ c.toNat ≤ 70 then some (c.toNat - 55)
  else if 97 ≤ c.toNat ∧ c.toNat ≤ 102 then some (c.toNat - 87)
  else none

/-- A piece of an encoded text: a character written as it is, or the byte of an
escape `%XX`. -/
inductive Piece where
  | plain (c : Char)
  | byte (value : Nat)
  deriving DecidableEq, Repr

/-- Reads the escapes of a text; `none` where a `%` is not followed by two
hexadecimal digits. -/
def pieces : List Char → Option (List Piece)
  | [] => some []
  | c :: rest =>
      if c = '%' then
        match rest with
        | hi :: lo :: rest =>
            match hexDigit hi, hexDigit lo with
            | some h, some l => (pieces rest).map fun tail => .byte (16 * h + l) :: tail
            | _, _ => none
        | _ => none
      else (pieces rest).map fun tail => .plain c :: tail

/-- The six bits a continuation byte `10xxxxxx` of UTF-8 carries. -/
def continuation : Piece → Option Nat
  | .byte b => if 128 ≤ b ∧ b < 192 then some (b - 128) else none
  | .plain _ => none

/-- Assembles the escaped bytes into characters, as UTF-8: a byte below 128 is a
character; a byte `110xxxxx`, `1110xxxx` or `11110xxx` starts a sequence of two,
three or four escaped bytes, which must be the shortest encoding of a code point
that is not a surrogate and not above `0x10FFFF`; `none` otherwise. -/
def assemble : List Piece → Option (List Char)
  | [] => some []
  | .plain c :: rest => (assemble rest).map fun tail => c :: tail
  | .byte b :: rest =>
      if b < 128 then (assemble rest).map fun tail => Char.ofNat b :: tail
      else if 192 ≤ b ∧ b < 224 then
        match rest with
        | p1 :: rest =>
            match continuation p1 with
            | some t1 =>
                let point := (b - 192) * 64 + t1
                if 128 ≤ point then (assemble rest).map fun tail => Char.ofNat point :: tail
                else none
            | none => none
        | _ => none
      else if 224 ≤ b ∧ b < 240 then
        match rest with
        | p1 :: p2 :: rest =>
            match continuation p1, continuation p2 with
            | some t1, some t2 =>
                let point := (b - 224) * 4096 + t1 * 64 + t2
                if 2048 ≤ point ∧ ¬(55296 ≤ point ∧ point < 57344) then
                  (assemble rest).map fun tail => Char.ofNat point :: tail
                else none
            | _, _ => none
        | _ => none
      else if 240 ≤ b ∧ b < 248 then
        match rest with
        | p1 :: p2 :: p3 :: rest =>
            match continuation p1, continuation p2, continuation p3 with
            | some t1, some t2, some t3 =>
                let point := (b - 240) * 262144 + t1 * 4096 + t2 * 64 + t3
                if 65536 ≤ point ∧ point < 1114112 then
                  (assemble rest).map fun tail => Char.ofNat point :: tail
                else none
            | _, _, _ => none
        | _ => none
      else none

/-- The function `decodeURIComponent`; `none` where it throws a `URIError`. -/
def decodeURIComponent (text : String) : Option String :=
  ((pieces text.data).bind assemble).map String.mk

/-- The function `decodeURIComponent` the way the router calls it, inside a `try`
that gives the text back where the function throws. -/
def safelyDecodeURIComponent (text : String) : String :=
  (decodeURIComponent text).getD text

/-- The line terminators, which the `.` of a regular expression does not match. -/
def isLineTerminator (c : Char) : Bool :=
  c.toNat == 0xA || c.toNat == 0xD || c.toNat == 0x2028 || c.toNat == 0x2029

/-- The text has no line terminator. -/
def noLineBreak (text : String) : Bool := text.data.all fun c => !isLineTerminator c

/-- The router's `matchPath` for a whole-path match: the path must begin with a slash
and slashes at its end are ignored. The pattern `*` is compiled to `^/(.*)$`, which
takes every such path that has no line terminator. -/
def matchPath (decodeParam : String → String) (pattern pathname : String) :
    Option (List (String × String)) :=
  match pathname.data with
  | '/' :: rest =>
      if pattern = "*" then
        if rest.all fun c => !isLineTerminator c then some [("*", decodeParam ⟨rest⟩)]
        else none
      else
        let own := (pattern.data.dropWhile fun c => c == '/').rdropWhile fun c => c == '/'
        matchSegments decodeParam ((segments own).map compileSegment)
          (segments (rest.rdropWhile fun c => c == '/'))
  | _ => none

/-- The `<Route>` elements of `<Routes>`, in the order written: the `path` and the
`element`, which may read the parameters. -/
def routes : List (String × (List (String × String) → Page)) :=
  [("/", fun _ => .homePage),
   ("/spacecrafts", fun _ => .spacecraftsPage),
   ("/spacecraft/:id", fun params => .spacecraftPage (params.lookup "id")),
   ("/construction", fun _ => .constructionPage),
   ("/planets", fun _ => .planetsPage),
   ("*", fun _ => .homePage)]

/-- The element of the first route of a table that matches. -/
def matchRoutes (decodeParam : String → String) :
    List (String × (List (String × String) → Page)) → String → Option Page
  | [], _ => none
  | (pattern, element) :: rest, pathname =>
      match matchPath decodeParam pattern pathname with
      | some params => some (element params)
      | none => matchRoutes decodeParam rest pathname

/-- The path the router matches: the location's pathname, `/` when that is empty,
after the router's percent-decoding (`decodePath`). -/
def decoded (decodePath : String → String) (pathname : String) : String :=
  decodePath (if pathname = "" then "/" else pathname)

/-- What `<Routes>` renders at a location, `none` when no route matches. The two
decoders are the router's (they depend on its version and are built on
`decodeURI` / `decodeURIComponent`, as `safelyDecodeURIComponent` is): `decodePath`
is applied to the pathname before matching and `decodeParam` to every parameter. The router tries the routes from the
most specific to the least; in this table the pattern `*` ranks last and no path
matches two of the other five, so this is the first match in the order written. -/
def render (decodePath decodeParam : String → String) (pathname : String) : Option Page :=
  matchRoutes decodeParam routes (decoded decodePath pathname)

/-- A value the `:id` parameter can take: a non-empty path segment. -/
def isSegment (id : String) : Prop := id.data ≠ [] ∧ '/' ∉ id.data

instance (id : String) : Decidable (isSegment id) := by unfold isSegment; infer_instance

end App

/-! ## Sample data -/

/-- A spacecraft stationed on planet 1. -/
def shipA : Spacecraft :=
  { id := "A", name := "Ark", capacity := .fin false 5 2, description := "first",
    pictureUrl := none, currentLocation := .fin false 1 0 }

/-- A spacecraft stationed on planet 2. -/
def shipB : Spacecraft :=
  { id := "B", name := "Bolt", capacity := .fin false 7 0, description := "second",
    pictureUrl := none, currentLocation := .fin false 1 1 }

/-- A third spacecraft, stationed on planet 1. -/
def shipC : Spacecraft :=
  { id := "C", name := "Comet", capacity := .fin false 9 0, description := "third",
    pictureUrl := none, currentLocation := .fin false 1 0 }

/-- A mounted fleet list showing `shipA`, `shipB` and `shipC`, nothing in flight. -/
def threeShips : SpacecraftsPage.Mounted :=
  { state := { spacecrafts := some [shipA, shipB, shipC], isLoading := false },
    pending := [] }

/-- The planet with id 1. -/
def mars : Planet :=
  { id := .fin false 1 0, name := "Mars", currentPopulation := .fin false 0 0,
    pictureUrl := "mars.png" }

/-- The planet with id 2. -/
def venus : Planet :=
  { id := .fin false 1 1, name := "Venus", currentPopulation := .fin false 0 0,
    pictureUrl := "venus.png" }

/-- A loaded planets view with `shipA` and planet 1 selected in the transfer form. -/
def samePlanetSelection : PlanetsPage.State :=
  { planets := some [mars, venus], spacecrafts := some [shipA, shipB], isLoading := false,
    selectedSpacecraftId := "A", selectedPlanetId := "1" }

/-- A loaded planets view with `shipA` (on planet 1) and planet 2 selected. -/
def readySelection : PlanetsPage.State :=
  { planets := some [mars, venus], spacecrafts := some [shipA, shipB], isLoading := false,
    selectedSpacecraftId := "A", selectedPlanetId := "2" }

/-- A Build form that passes validation with the capacity `1.5`. -/
def fractionalForm : ConstructionPage.State :=
  { name := "Ark", capacity := "1.5", description := "d" }

/-- A Build form that passes validation with a picture URL of scheme `httpx`. -/
def httpxForm : ConstructionPage.State :=
  { name := "Ark", capacity := "12", description := "d",
    pictureUrl := "httpx://example.com/a.png" }

/-- A Build form that passes validation, with spaces around its texts. -/
def paddedForm : ConstructionPage.State :=
  { name := " Ark ", capacity := "12", description := "d\n",
    pictureUrl := "https://example.com/a.png " }

/-! ## Properties: strings and numbers -/

theorem truthy_eq_false_iff (s : String) : truthy s = false ↔ s = "" := by
  cases s with
  | mk data => cases data <;> simp [truthy, String.ext_iff]

theorem truthy_eq_true_iff (s : String) : truthy s = true ↔ s ≠ "" := by
  cases s with
  | mk data => cases data <;> simp [truthy, String.ext_iff]

/-- For a number that is not `NaN`, `x <= 0` is the negation of `x > 0`. -/
theorem JSNumber.leZero_eq_not_gtZero (x : JSNumber) (h : x.isNaN = false) :
    x.leZero = !x.gtZero := by
  cases x with
  | nan => simp [JSNumber.isNaN] at h
  | inf neg => cases neg <;> rfl
  | fin neg m e =>
      cases neg <;> by_cases hm : m = 0 <;> simp [JSNumber.leZero, JSNumber.gtZero, bne, hm]

/-! ## Properties: the Build form -/

namespace ConstructionPage

theorem validateForm_name (s : State) :
    (validateForm s).name =
      if truthy (trim s.name) then .absent else .message "Spacecraft name is required" := by
  unfold validateForm
  by_cases h1 : truthy (trim s.name) = true <;> by_cases h2 : truthy s.capacity = true <;>
    by_cases h3 : (isNaN s.capacity || (Number s.capacity).leZero) = true <;>
    by_cases h4 : truthy (trim s.description) = true <;>
    by_cases h5 : (truthy (trim s.pictureUrl) && !startsWith s.pictureUrl "http") = true <;>
    simp only [h1, h2, h3, h4, h5] <;> rfl

theorem validateForm_capacity (s : State) :
    (validateForm s).capacity =
      if !truthy s.capacity then .message "Capacity is required"
      else if isNaN s.capacity || (Number s.capacity).leZero then
        .message "Capacity must be a positive number"
      else .absent := by
  unfold validateForm
  by_cases h1 : truthy (trim s.name) = true <;> by_cases h2 : truthy s.capacity = true <;>
    by_cases h3 : (isNaN s.capacity || (Number s.capacity).leZero) = true <;>
    by_cases h4 : truthy (trim s.description) = true <;>
    by_cases h5 : (truthy (trim s.pictureUrl) && !startsWith s.pictureUrl "http") = true <;>
    simp only [h1, h2, h3, h4, h5] <;> rfl

theorem validateForm_description (s : State) :
    (validateForm s).description =
      if truthy (trim s.description) then .absent else .message "Description is required" := by
  unfold validateForm
  by_cases h1 : truthy (trim s.name) = true <;> by_cases h2 : truthy s.capacity = true <;>
    by_cases h3 : (isNaN s.capacity || (Number s.capacity).leZero) = true <;>
    by_cases h4 : truthy (trim s.description) = true <;>
    by_cases h5 : (truthy (trim s.pictureUrl) && !startsWith s.pictureUrl "http") = true <;>
    simp only [h1, h2, h3, h4, h5] <;> rfl

theorem validateForm_pictureUrl (s : State) :
    (validateForm s).pictureUrl =
      if truthy (trim s.pictureUrl) && !startsWith s.pictureUrl "http" then
        .message "Picture URL must start with http:// or https://"
      else .absent := by
  unfold validateForm
  by_cases h1 : truthy (trim s.name) = true <;> by_cases h2 : truthy s.capacity = true <;>
    by_cases h3 : (isNaN s.capacity || (Number s.capacity).leZero) = true <;>
    by_cases h4 : truthy (trim s.description) = true <;>
    by_cases h5 : (truthy (trim s.pictureUrl) && !startsWith s.pictureUrl "http") = true <;>
    simp only [h1, h2, h3, h4, h5] <;> rfl

theorem name_entry_iff (s : State) : (validateForm s).name ≠ .absent ↔ nameBlank s := by
  rw [validateForm_name, nameBlank, ← truthy_eq_false_iff]
  cases truthy (trim s.name) <;> simp

theorem capacity_entry_iff (s : State) :
    (validateForm s).capacity ≠ .absent ↔ capacityBad s := by
  rw [validateForm_capacity, capacityBad, ← truthy_eq_false_iff]
  cases truthy s.capacity <;> cases isNaN s.capacity <;> cases (Number s.capacity).leZero <;>
    simp

theorem description_entry_iff (s : State) :
    (validateForm s).description ≠ .absent ↔ descriptionBlank s := by
  rw [validateForm_description, descriptionBlank, ← truthy_eq_false_iff]
  cases truthy (trim s.description) <;> simp

theorem pictureUrl_entry_iff (s : State) :
    (validateForm s).pictureUrl ≠ .absent ↔ pictureUrlBad s := by
  rw [validateForm_pictureUrl, pictureUrlBad, ← truthy_eq_true_iff]
  cases truthy (trim s.pictureUrl) <;> cases startsWith s.pictureUrl "http" <;> simp

/-- Every entry `validateForm` writes is a non-empty message. -/
theorem entry_truthy (s : State) :
    ((validateForm s).name ≠ .absent → (validateForm s).name.truthy = true) ∧
    ((validateForm s).capacity ≠ .absent → (validateForm s).capacity.truthy = true) ∧
    ((validateForm s).description ≠ .absent → (validateForm s).description.truthy = true) ∧
    ((validateForm s).pictureUrl ≠ .absent → (validateForm s).pictureUrl.truthy = true) := by
  rw [validateForm_name, validateForm_capacity, validateForm_description,
    validateForm_pictureUrl]
  refine ⟨?_, ?_, ?_, ?_⟩
  all_goals
    split_ifs
    all_goals first
      | (intro _; decide)
      | (intro h; exact absurd rfl h)

theorem keys_eq_nil_iff (e : Errors) :
    e.keys = [] ↔
      e.name = .absent ∧ e.capacity = .absent ∧ e.description = .absent ∧
        e.pictureUrl = .absent := by
  unfold Errors.keys
  by_cases h1 : e.name = .absent <;> by_cases h2 : e.capacity = .absent <;>
    by_cases h3 : e.description = .absent <;> by_cases h4 : e.pictureUrl = .absent <;>
    simp [h1, h2, h3, h4]

/-- The guard of `handleSubmit` fires exactly when some rule fails. -/
theorem keys_length_pos_iff (s : State) :
    (validateForm s).keys.length > 0 ↔
      nameBlank s ∨ capacityBad s ∨ descriptionBlank s ∨ pictureUrlBad s := by
  rw [gt_iff_lt, List.length_pos, ne_eq, keys_eq_nil_iff, ← name_entry_iff,
    ← capacity_entry_iff, ← description_entry_iff, ← pictureUrl_entry_iff]
  tauto

theorem handleSubmit_of_invalid (s : State) (api : ApiOutcome Unit)
    (h : nameBlank s ∨ capacityBad s ∨ descriptionBlank s ∨ pictureUrlBad s) :
    handleSubmit s api = ({ s with errors := validateForm s }, [.preventDefault]) := by
  unfold handleSubmit
  simp only [(keys_length_pos_iff s).mpr h, if_true]

theorem handleSubmit_valid_rejected (s : State)
    (h : ¬(nameBlank s ∨ capacityBad s ∨ descriptionBlank s ∨ pictureUrlBad s)) :
    handleSubmit s .rejected =
      ({ s with errors := {}, isSubmitting := false },
        [.preventDefault, .buildSpacecraft (payload s),
          .alert "An unexpected error occurred."]) := by
  unfold handleSubmit
  simp only [mt (keys_length_pos_iff s).mp h, if_false]
  rfl

theorem handleSubmit_valid_error (s : State) (data : Option Unit)
    (h : ¬(nameBlank s ∨ capacityBad s ∨ descriptionBlank s ∨ pictureUrlBad s)) :
    handleSubmit s (.resolved ⟨true, data⟩) =
      ({ s with errors := {}, isSubmitting := false },
        [.preventDefault, .buildSpacecraft (payload s),
          .alert "Failed to build spacecraft. Please try again."]) := by
  unfold handleSubmit
  simp only [mt (keys_length_pos_iff s).mp h, if_false]
  rfl

theorem handleSubmit_valid_success (s : State) (data : Option Unit)
    (h : ¬(nameBlank s ∨ capacityBad s ∨ descriptionBlank s ∨ pictureUrlBad s)) :
    handleSubmit s (.resolved ⟨false, data⟩) =
      ({ s with errors := {}, isSubmitting := true },
        [.preventDefault, .buildSpacecraft (payload s),
          .alert (s.name ++ " has been successfully built!"), .navigate "/spacecrafts"]) := by
  unfold handleSubmit
  simp only [mt (keys_length_pos_iff s).mp h, if_false]
  rfl

/-- C1: when the name is empty after trimming, or the capacity is empty, non-numeric
or `<= 0`, or the description is empty after trimming, or the picture URL is
non-blank and does not start with `http`, `handleSubmit` stores the validation
errors, with a non-empty message for each field at fault, performs no API call (so
no `buildSpacecraft`), and does not touch `isSubmitting`, which stays `false`. -/
theorem handleSubmit_blocks_invalid_form (s : State) (api : ApiOutcome Unit)
    (h : nameBlank s ∨ capacityBad s ∨ descriptionBlank s ∨ pictureUrlBad s) :
    (handleSubmit s api).1.errors = validateForm s ∧
    (nameBlank s → (handleSubmit s api).1.errors.name.truthy = true) ∧
    (capacityBad s → (handleSubmit s api).1.errors.capacity.truthy = true) ∧
    (descriptionBlank s → (handleSubmit s api).1.errors.description.truthy = true) ∧
    (pictureUrlBad s → (handleSubmit s api).1.errors.pictureUrl.truthy = true) ∧
    (handleSubmit s api).2.filter Effect.isApiCall = [] ∧
    (handleSubmit s api).2.filter Effect.isBuild = [] ∧
    (handleSubmit s api).1.isSubmitting = s.isSubmitting ∧
    (s.isSubmitting = false → (handleSubmit s api).1.isSubmitting = false) := by
  rw [handleSubmit_of_invalid s api h]
  obtain ⟨e1, e2, e3, e4⟩ := entry_truthy s
  refine ⟨rfl, ?_, ?_, ?_, ?_, rfl, rfl, rfl, fun hs => hs⟩
  · exact fun hb => e1 ((name_entry_iff s).mpr hb)
  · exact fun hb => e2 ((capacity_entry_iff s).mpr hb)
  · exact fun hb => e3 ((description_entry_iff s).mpr hb)
  · exact fun hb => e4 ((pictureUrl_entry_iff s).mpr hb)

/-- Witness of C1: a form with a blank name, the capacity `abc`, a blank description
and the picture URL `ftp://x` gets four messages and no call. -/
theorem handleSubmit_blocks_invalid_form_witness :
    (nameBlank { name := "  ", capacity := "abc", description := "", pictureUrl := "ftp://x" } ∨
      capacityBad { name := "  ", capacity := "abc", description := "", pictureUrl := "ftp://x" } ∨
      descriptionBlank
        { name := "  ", capacity := "abc", description := "", pictureUrl := "ftp://x" } ∨
      pictureUrlBad
        { name := "  ", capacity := "abc", description := "", pictureUrl := "ftp://x" }) ∧
    (handleSubmit { name := "  ", capacity := "abc", description := "", pictureUrl := "ftp://x" }
      .rejected).1.errors =
      { name := .message "Spacecraft name is required",
        capacity := .message "Capacity must be a positive number",
        description := .message "Description is required",
        pictureUrl := .message "Picture URL must start with http:// or https://" } ∧
    (handleSubmit { name := "  ", capacity := "abc", description := "", pictureUrl := "ftp://x" }
      .rejected).2.filter Effect.isBuild = [] :=
  ⟨by decide,
    (handleSubmit_blocks_invalid_form
      { name := "  ", capacity := "abc", description := "", pictureUrl := "ftp://x" } .rejected
      (by decide)).1.trans (by decide),
    (handleSubmit_blocks_invalid_form
      { name := "  ", capacity := "abc", description := "", pictureUrl := "ftp://x" } .rejected
      (by decide)).2.2.2.2.2.2.1⟩

/-- C2: `validateForm` decides each field on its own. The name has an entry iff the
trimmed name is empty; the capacity iff it is empty, not numeric or not `> 0`; the
description iff the trimmed description is empty; the picture URL iff it is
non-blank and does not begin with `http`. Each entry present is a non-empty message
and equals the entry of a form in which only that field is filled in. The mapping is
empty iff all four rules pass, and some form gets all four entries at once. -/
theorem validateForm_decides_each_field (s : State) :
    ((validateForm s).name ≠ .absent ↔ trim s.name = "") ∧
    ((validateForm s).capacity ≠ .absent ↔
      (s.capacity = "" ∨ isNaN s.capacity = true ∨ (Number s.capacity).gtZero = false)) ∧
    ((validateForm s).description ≠ .absent ↔ trim s.description = "") ∧
    ((validateForm s).pictureUrl ≠ .absent ↔
      (trim s.pictureUrl ≠ "" ∧ startsWith s.pictureUrl "http" = false)) ∧
    ((validateForm s).name.truthy = true ↔ (validateForm s).name ≠ .absent) ∧
    ((validateForm s).capacity.truthy = true ↔ (validateForm s).capacity ≠ .absent) ∧
    ((validateForm s).description.truthy = true ↔ (validateForm s).description ≠ .absent) ∧
    ((validateForm s).pictureUrl.truthy = true ↔ (validateForm s).pictureUrl ≠ .absent) ∧
    (validateForm s).name = (validateForm { name := s.name }).name ∧
    (validateForm s).capacity = (validateForm { capacity := s.capacity }).capacity ∧
    (validateForm s).description =
      (validateForm { description := s.description }).description ∧
    (validateForm s).pictureUrl = (validateForm { pictureUrl := s.pictureUrl }).pictureUrl ∧
    ((validateForm s).keys = [] ↔
      (trim s.name ≠ "" ∧
        (s.capacity ≠ "" ∧ isNaN s.capacity = false ∧ (Number s.capacity).gtZero = true) ∧
        trim s.description ≠ "" ∧
        (trim s.pictureUrl = "" ∨ startsWith s.pictureUrl "http" = true))) ∧
    (∃ t : State, (validateForm t).keys = ["name", "capacity", "description", "pictureUrl"]) := by
  have hcap : capacityBad s ↔
      (s.capacity = "" ∨ isNaN s.capacity = true ∨ (Number s.capacity).gtZero = false) := by
    unfold capacityBad
    cases hn : isNaN s.capacity
    · have := JSNumber.leZero_eq_not_gtZero (Number s.capacity) hn
      rw [this]
      cases (Number s.capacity).gtZero <;> simp
    · simp
  obtain ⟨e1, e2, e3, e4⟩ := entry_truthy s
  have absent_not_truthy : ∀ x : Slot, x.truthy = true → x ≠ .absent := by
    intro x hx hx'
    rw [hx'] at hx
    exact absurd hx (by decide)
  refine ⟨name_entry_iff s, (capacity_entry_iff s).trans hcap, description_entry_iff s,
    pictureUrl_entry_iff s, ⟨absent_not_truthy _, e1⟩, ⟨absent_not_truthy _, e2⟩,
    ⟨absent_not_truthy _, e3⟩, ⟨absent_not_truthy _, e4⟩, ?_, ?_, ?_, ?_, ?_, ?_⟩
  · rw [validateForm_name, validateForm_name]
  · rw [validateForm_capacity, validateForm_capacity]
  · rw [validateForm_description, validateForm_description]
  · rw [validateForm_pictureUrl, validateForm_pictureUrl]
  · have flip : ∀ (x : Slot) (P : Prop), (x ≠ .absent ↔ P) → (x = .absent ↔ ¬P) :=
      fun x P hx => by rw [← hx]; simp
    rw [keys_eq_nil_iff, flip _ _ (name_entry_iff s),
      flip _ _ ((capacity_entry_iff s).trans hcap), flip _ _ (description_entry_iff s),
      flip _ _ (pictureUrl_entry_iff s)]
    simp only [nameBlank, descriptionBlank, pictureUrlBad, ne_eq, not_or, not_and_or,
      Bool.not_eq_true, Bool.not_eq_false, not_not]
  · exact ⟨{ name := "  ", capacity := "abc", description := "", pictureUrl := "ftp://x" },
      by decide⟩

theorem not_bad_of_keys_eq_nil (s : State) (h : (validateForm s).keys = []) :
    ¬(nameBlank s ∨ capacityBad s ∨ descriptionBlank s ∨ pictureUrlBad s) := by
  intro hb
  have := (keys_length_pos_iff s).mpr hb
  rw [h] at this
  exact absurd this (by decide)

/-- C3: for a form that passes validation, `handleSubmit` makes exactly one API call,
the `buildSpacecraft` call with the form's payload, however that call settles; and
when it resolves with a response that is not an error, the handler ends by navigating
to `/spacecrafts`. -/
theorem handleSubmit_valid_builds_once (s : State) (api : ApiOutcome Unit) (data : Option Unit)
    (h : (validateForm s).keys = []) :
    (handleSubmit s api).2.filter Effect.isApiCall = [.buildSpacecraft (payload s)] ∧
    ((handleSubmit s api).2.filter Effect.isBuild).length = 1 ∧
    (handleSubmit s (.resolved ⟨false, data⟩)).2 =
      [.preventDefault, .buildSpacecraft (payload s),
        .alert (s.name ++ " has been successfully built!"), .navigate "/spacecrafts"] ∧
    (handleSubmit s (.resolved ⟨false, data⟩)).2.filter Effect.isNavigate =
      [.navigate "/spacecrafts"] := by
  have hv := not_bad_of_keys_eq_nil s h
  rw [handleSubmit_valid_success s data hv]
  refine ⟨?_, ?_, rfl, rfl⟩
  all_goals
    rcases api with ⟨_ | _, d⟩ | _
    · rw [handleSubmit_valid_success s d hv]; rfl
    · rw [handleSubmit_valid_error s d hv]; rfl
    · rw [handleSubmit_valid_rejected s hv]; rfl

/-- Witness of C3: the form `Ark` / `12` / `d` with no picture passes validation. -/
theorem handleSubmit_valid_builds_once_witness :
    (validateForm { name := "Ark", capacity := "12", description := "d" }).keys = [] ∧
    (handleSubmit { name := "Ark", capacity := "12", description := "d" }
      (.resolved ⟨false, none⟩)).2 =
      [.preventDefault,
        .buildSpacecraft
          { name := "Ark", capacity := .fin false 3 2, description := "d", pictureUrl := none },
        .alert "Ark has been successfully built!", .navigate "/spacecrafts"] :=
  ⟨by decide,
    (handleSubmit_valid_builds_once { name := "Ark", capacity := "12", description := "d" }
      .rejected none (by decide)).2.2.1.trans (by decide)⟩

/-- C4: for a form that passes validation, when the `buildSpacecraft` call rejects or
resolves with `isError`, `handleSubmit` leaves the four fields as they were, does not
navigate, shows one alert (`An unexpected error occurred.` after a rejection,
`Failed to build spacecraft. Please try again.` after an error response) and ends
with `isSubmitting` false. -/
theorem handleSubmit_failure_keeps_form (s : State) (api : ApiOutcome Unit)
    (h : (validateForm s).keys = []) (hfail : api.failed = true) :
    (handleSubmit s api).1.name = s.name ∧
    (handleSubmit s api).1.capacity = s.capacity ∧
    (handleSubmit s api).1.description = s.description ∧
    (handleSubmit s api).1.pictureUrl = s.pictureUrl ∧
    (handleSubmit s api).2.filter Effect.isNavigate = [] ∧
    (handleSubmit s api).2.filter Effect.isAlert =
      [.alert (match api with
        | .rejected => "An unexpected error occurred."
        | .resolved _ => "Failed to build spacecraft. Please try again.")] ∧
    (handleSubmit s api).1.isSubmitting = false := by
  have hv := not_bad_of_keys_eq_nil s h
  rcases api with ⟨_ | _, d⟩ | _
  · exact absurd hfail (by simp [ApiOutcome.failed])
  · rw [handleSubmit_valid_error s d hv]
    exact ⟨rfl, rfl, rfl, rfl, rfl, rfl, rfl⟩
  · rw [handleSubmit_valid_rejected s hv]
    exact ⟨rfl, rfl, rfl, rfl, rfl, rfl, rfl⟩

/-- Witness of C4: the form `Ark` / `12` / `d` when the server answers with an error. -/
theorem handleSubmit_failure_keeps_form_witness :
    (validateForm { name := "Ark", capacity := "12", description := "d" }).keys = [] ∧
    (ApiOutcome.resolved (⟨true, none⟩ : ApiResponse Unit)).failed = true ∧
    (handleSubmit { name := "Ark", capacity := "12", description := "d" }
      (.resolved ⟨true, none⟩)).1.isSubmitting = false :=
  ⟨by decide, by decide,
    (handleSubmit_failure_keeps_form { name := "Ark", capacity := "12", description := "d" }
      (.resolved ⟨true, none⟩) (by decide) (by decide)).2.2.2.2.2.2⟩

end ConstructionPage

/-! ## Properties: the planets view -/

namespace PlanetsPage

/-- C5: `handleTransfer` returns before any API call, with the state untouched, when
no spacecraft is selected, when no destination planet is selected, or when the
selected planet's id equals the selected spacecraft's `currentLocation`; in the last
case, with both selections non-empty, its one alert reads
`<spacecraft name> is already on <planet name>!`. -/
theorem handleTransfer_rejects_before_any_call (s : State) (confirmed : Bool)
    (sendApi : ApiOutcome TransferData) (planetsApi : ApiOutcome (List Planet))
    (spacecraftsApi : ApiOutcome (List Spacecraft))
    (h : s.selectedSpacecraftId = "" ∨ s.selectedPlanetId = "" ∨
      ∃ spacecraft targetPlanet,
        getSpacecraftById s s.selectedSpacecraftId = some spacecraft ∧
        getPlanetById s (Number s.selectedPlanetId) = some targetPlanet ∧
        spacecraft.currentLocation.strictEq targetPlanet.id = true) :
    (handleTransfer s confirmed sendApi planetsApi spacecraftsApi).1 = s ∧
    (handleTransfer s confirmed sendApi planetsApi spacecraftsApi).2.filter Effect.isApiCall
      = [] ∧
    ∀ spacecraft targetPlanet,
      s.selectedSpacecraftId ≠ "" → s.selectedPlanetId ≠ "" →
      getSpacecraftById s s.selectedSpacecraftId = some spacecraft →
      getPlanetById s (Number s.selectedPlanetId) = some targetPlanet →
      spacecraft.currentLocation.strictEq targetPlanet.id = true →
      (handleTransfer s confirmed sendApi planetsApi spacecraftsApi).2 =
        [.preventDefault,
          .alert (spacecraft.name ++ " is already on " ++ targetPlanet.name ++ "!")] := by
  have same : ∀ spacecraft targetPlanet,
      s.selectedSpacecraftId ≠ "" → s.selectedPlanetId ≠ "" →
      getSpacecraftById s s.selectedSpacecraftId = some spacecraft →
      getPlanetById s (Number s.selectedPlanetId) = some targetPlanet →
      spacecraft.currentLocation.strictEq targetPlanet.id = true →
      handleTransfer s confirmed sendApi planetsApi spacecraftsApi =
        (s, [.preventDefault,
          .alert (spacecraft.name ++ " is already on " ++ targetPlanet.name ++ "!")]) := by
    intro spacecraft targetPlanet h1 h2 h3 h4 h5
    unfold handleTransfer
    simp [(truthy_eq_true_iff _).mpr h1, (truthy_eq_true_iff _).mpr h2, h3, h4, h5]
  refine ⟨?_, ?_, fun sc pl h1 h2 h3 h4 h5 => by rw [same sc pl h1 h2 h3 h4 h5]⟩
  all_goals
    by_cases h1 : s.selectedSpacecraftId = ""
    · unfold handleTransfer
      simp [(truthy_eq_false_iff _).mpr h1, Effect.isApiCall]
    · by_cases h2 : s.selectedPlanetId = ""
      · unfold handleTransfer
        simp [(truthy_eq_true_iff _).mpr h1, (truthy_eq_false_iff _).mpr h2, Effect.isApiCall]
      · rcases h with h | h | ⟨sc, pl, h3, h4, h5⟩
        · exact absurd h h1
        · exact absurd h h2
        · simp [same sc pl h1 h2 h3 h4 h5, Effect.isApiCall]

/-- Witness of C5: `Ark` is on planet 1 and planet 1 is the selected destination. -/
theorem handleTransfer_rejects_before_any_call_witness :
    (getSpacecraftById samePlanetSelection samePlanetSelection.selectedSpacecraftId =
        some shipA ∧
      getPlanetById samePlanetSelection (Number samePlanetSelection.selectedPlanetId) =
        some mars ∧
      shipA.currentLocation.strictEq mars.id = true) ∧
    handleTransfer samePlanetSelection true .rejected .rejected .rejected =
      (samePlanetSelection, [.preventDefault, .alert "Ark is already on Mars!"]) :=
  ⟨by decide,
    Prod.ext
      (handleTransfer_rejects_before_any_call samePlanetSelection true .rejected .rejected
        .rejected (Or.inr (Or.inr ⟨shipA, mars, by decide⟩))).1
      (((handleTransfer_rejects_before_any_call samePlanetSelection true .rejected .rejected
        .rejected (Or.inr (Or.inr ⟨shipA, mars, by decide⟩))).2.2 shipA mars (by decide)
        (by decide) (by decide) (by decide) (by decide)).trans (by decide))⟩

end PlanetsPage

/-! ## Properties: destroying a spacecraft -/

/-- Removing the entries with a given id from a list whose ids are distinct and
include that id shortens it by one. -/
theorem length_filter_id_of_nodup (list : List Spacecraft) (id : String)
    (hn : (list.map fun x => x.id).Nodup) (hm : id ∈ list.map fun x => x.id) :
    (list.filter fun x => x.id != id).length + 1 = list.length := by
  induction list with
  | nil => simp at hm
  | cons a t ih =>
      rw [List.map_cons, List.nodup_cons] at hn
      by_cases ha : a.id = id
      · have hall : ∀ x ∈ t, (x.id != id) = true := by
          intro x hx
          have hne : x.id ≠ id := by
            intro hxe
            exact hn.1 (List.mem_map.mpr ⟨x, hx, hxe.trans ha.symm⟩)
          simpa using hne
        have hdrop : (a.id != id) = false := by simp [ha]
        rw [List.filter_cons, hdrop, List.filter_eq_self.mpr hall, List.length_cons]
        rfl
      · have hkeep : (a.id != id) = true := by simpa using ha
        have hm' : id ∈ t.map fun x => x.id := by
          rw [List.map_cons, List.mem_cons] at hm
          rcases hm with h | h
          · exact absurd h.symm ha
          · exact h
        rw [List.filter_cons, hkeep, if_pos rfl, List.length_cons, ih hn.2 hm', List.length_cons]

/-- C6: when the user declines the prompt, `handleDestroy` of the fleet list and
`handleDestroy` of the detail view do nothing but show the prompt: the state (list
or detail) is returned as it was, and the effect trace holds no
`destroySpacecraftById` call and no `navigate`. -/
theorem handleDestroy_declined_is_noop (l : SpacecraftsPage.State) (d : SpacecraftPage.State)
    (spacecraft : Spacecraft) (id name : String) (api : ApiOutcome Unit) :
    SpacecraftsPage.handleDestroy l id name false api =
      (l, [.confirm
        ("Are you sure you want to destroy " ++ name ++ "? This action cannot be undone.")]) ∧
    (SpacecraftsPage.handleDestroy l id name false api).2.filter Effect.isDestroy = [] ∧
    (SpacecraftsPage.handleDestroy l id name false api).2.filter Effect.isApiCall = [] ∧
    (SpacecraftsPage.handleDestroy l id name false api).2.filter Effect.isNavigate = [] ∧
    SpacecraftPage.handleDestroy { d with spacecraft := some spacecraft } id false api =
      .done { d with spacecraft := some spacecraft }
        [.confirm ("Are you sure you want to destroy " ++ spacecraft.name ++
          "? This action cannot be undone.")] ∧
    SpacecraftPage.handleDestroy { d with spacecraft := none } id false api = .typeError :=
  ⟨rfl, rfl, rfl, rfl, rfl, rfl⟩

namespace SpacecraftsPage

/-- A destroy run from its click to its end with nothing in between: a confirmed
destroy whose call resolves without error replaces the list by the list without the
entries of that id: no entry with the id remains, every other entry stays, as often
as before and in the same order; when the ids are distinct and the id is in the
list, the list is one shorter; and the only API call made is the
`destroySpacecraftById` call (no re-fetch). -/
theorem handleDestroy_success_removes_entry (s : State) (list : List Spacecraft)
    (id name : String) (data : Option Unit) (hs : s.spacecrafts = some list) :
    (handleDestroy s id name true (.resolved ⟨false, data⟩)).1 =
      { s with spacecrafts := some (list.filter fun x => x.id != id) } ∧
    (∀ x ∈ list.filter (fun x => x.id != id), x.id ≠ id) ∧
    (∀ x ∈ list, x.id ≠ id → x ∈ list.filter (fun x => x.id != id)) ∧
    (∀ x, x.id ≠ id → (list.filter fun x => x.id != id).count x = list.count x) ∧
    (list.filter fun x => x.id != id).Sublist list ∧
    ((list.map fun x => x.id).Nodup → id ∈ (list.map fun x => x.id) →
      (list.filter fun x => x.id != id).length + 1 = list.length) ∧
    (handleDestroy s id name true (.resolved ⟨false, data⟩)).2.filter Effect.isApiCall =
      [.destroySpacecraftById id] ∧
    Effect.getSpacecrafts ∉ (handleDestroy s id name true (.resolved ⟨false, data⟩)).2 := by
  have hrun : handleDestroy s id name true (.resolved ⟨false, data⟩) =
      ({ s with spacecrafts := some (list.filter fun x => x.id != id) },
        [.confirm
          ("Are you sure you want to destroy " ++ name ++ "? This action cannot be undone."),
          .destroySpacecraftById id, .alert (name ++ " has been destroyed successfully.")]) := by
    unfold handleDestroy
    simp [hs]
  refine ⟨by rw [hrun], ?_, ?_, ?_, List.filter_sublist list,
    length_filter_id_of_nodup list id, by rw [hrun]; rfl, by rw [hrun]; simp⟩
  · intro x hx
    have := (List.mem_filter.mp hx).2
    simpa using this
  · intro x hx hne
    exact List.mem_filter.mpr ⟨hx, by simpa using hne⟩
  · intro x hne
    exact List.count_filter (by simpa using hne)

/-- Run with nothing in between, `handleDestroy` is its settling part applied to the
state it was started from. -/
theorem handleDestroy_eq_settle (s : State) (id name : String) (api : ApiOutcome Unit) :
    handleDestroy s id name true api =
      ((handleDestroySettle s s id name api).1,
        [.confirm
          ("Are you sure you want to destroy " ++ name ++ "? This action cannot be undone."),
          .destroySpacecraftById id] ++ (handleDestroySettle s s id name api).2) := by
  unfold handleDestroy handleDestroySettle
  rcases api with ⟨_ | _, data⟩ | _
  · cases hs : s.spacecrafts <;> simp
  · simp
  · simp

/-- The list a successful destroy writes is the clicked render's list without the id,
whatever list is shown when the call settles. -/
theorem handleDestroySettle_writes_clicked_list (clicked current : State)
    (list : List Spacecraft) (id name : String) (data : Option Unit)
    (h : clicked.spacecrafts = some list) :
    (handleDestroySettle clicked current id name (.resolved ⟨false, data⟩)).1.spacecrafts =
      some (list.filter fun x => x.id != id) := by
  unfold handleDestroySettle
  simp [h]

/-- C7, at the failing input: the fleet list shows `[shipA, shipB, shipC]`; Destroy is
confirmed on `A` and, before that call has settled, on `B`, so both handlers close
over the render of the three. Both calls resolve without error. After the first
response the list shown is `[shipB, shipC]`; the second response replaces it by
`[shipA, shipC]`: the list shown is no shorter, and `shipA`, already destroyed, is
shown again, where the list shown without `B` is `[shipC]`. -/
theorem concurrent_destroys_restore_entry :
    (run threeShips [.destroy "A" "Ark" true, .destroy "B" "Bolt" true]).pending =
      [{ clicked := threeShips.state, id := "A", name := "Ark" },
        { clicked := threeShips.state, id := "B", name := "Bolt" }] ∧
    (run threeShips [.destroy "A" "Ark" true, .destroy "B" "Bolt" true,
      .settle 0 (.resolved ⟨false, none⟩)]).state.spacecrafts = some [shipB, shipC] ∧
    (run threeShips [.destroy "A" "Ark" true, .destroy "B" "Bolt" true,
      .settle 0 (.resolved ⟨false, none⟩),
      .settle 0 (.resolved ⟨false, none⟩)]).state.spacecrafts = some [shipA, shipC] ∧
    (step (run threeShips [.destroy "A" "Ark" true, .destroy "B" "Bolt" true,
      .settle 0 (.resolved ⟨false, none⟩)]) (.settle 0 (.resolved ⟨false, none⟩))).2 =
      [.alert "Bolt has been destroyed successfully."] ∧
    ([shipB, shipC].filter fun x => x.id != "B") = [shipC] := by
  decide

end SpacecraftsPage

/-! ## Properties: fetching on mount -/

/-- C8: when either of the two initial fetches of the planets view resolves with
`isError` or rejects, `fetchData` ends with `isLoading` false and `error` set to one
of two fixed messages (`An unexpected error occurred.` or
`Failed to load data. Please try again.`), writes neither `planets` nor
`spacecrafts`, which from the initial state are both still `null`, and the
component renders its error return with that message, not the lists. -/
theorem fetchData_failure_renders_error (s : PlanetsPage.State)
    (planetsApi : ApiOutcome (List Planet)) (spacecraftsApi : ApiOutcome (List Spacecraft))
    (h : planetsApi.failed = true ∨ spacecraftsApi.failed = true) :
    (PlanetsPage.fetchData s planetsApi spacecraftsApi).1.isLoading = false ∧
    (PlanetsPage.fetchData s planetsApi spacecraftsApi).1.planets = s.planets ∧
    (PlanetsPage.fetchData s planetsApi spacecraftsApi).1.spacecrafts = s.spacecrafts ∧
    (PlanetsPage.fetchData {} planetsApi spacecraftsApi).1.planets = none ∧
    (PlanetsPage.fetchData {} planetsApi spacecraftsApi).1.spacecrafts = none ∧
    (((PlanetsPage.fetchData s planetsApi spacecraftsApi).1.error =
          some "Failed to load data. Please try again." ∧
        PlanetsPage.render (PlanetsPage.fetchData s planetsApi spacecraftsApi).1 =
          .error "Failed to load data. Please try again.") ∨
      ((PlanetsPage.fetchData s planetsApi spacecraftsApi).1.error =
          some "An unexpected error occurred." ∧
        PlanetsPage.render (PlanetsPage.fetchData s planetsApi spacecraftsApi).1 =
          .error "An unexpected error occurred.")) := by
  rcases planetsApi with ⟨_ | _, pd⟩ | _ <;> rcases spacecraftsApi with ⟨_ | _, sd⟩ | _
  · rcases h with h | h <;> exact absurd h (by simp [ApiOutcome.failed])
  · exact ⟨rfl, rfl, rfl, rfl, rfl, Or.inl ⟨rfl, rfl⟩⟩
  · exact ⟨rfl, rfl, rfl, rfl, rfl, Or.inr ⟨rfl, rfl⟩⟩
  · exact ⟨rfl, rfl, rfl, rfl, rfl, Or.inl ⟨rfl, rfl⟩⟩
  · exact ⟨rfl, rfl, rfl, rfl, rfl, Or.inl ⟨rfl, rfl⟩⟩
  · exact ⟨rfl, rfl, rfl, rfl, rfl, Or.inr ⟨rfl, rfl⟩⟩
  · exact ⟨rfl, rfl, rfl, rfl, rfl, Or.inr ⟨rfl, rfl⟩⟩
  · exact ⟨rfl, rfl, rfl, rfl, rfl, Or.inr ⟨rfl, rfl⟩⟩
  · exact ⟨rfl, rfl, rfl, rfl, rfl, Or.inr ⟨rfl, rfl⟩⟩

/-- Witness of C8: the planets arrive and the spacecraft call answers with an error. -/
theorem fetchData_failure_renders_error_witness :
    ((ApiOutcome.resolved ⟨false, some [mars]⟩ : ApiOutcome (List Planet)).failed = true ∨
      (ApiOutcome.resolved ⟨true, none⟩ : ApiOutcome (List Spacecraft)).failed = true) ∧
    (PlanetsPage.fetchData {} (.resolved ⟨false, some [mars]⟩) (.resolved ⟨true, none⟩)).1.planets
      = none :=
  ⟨by decide,
    (fetchData_failure_renders_error {} (.resolved ⟨false, some [mars]⟩)
      (.resolved ⟨true, none⟩) (by decide)).2.2.2.1⟩

namespace SpacecraftPage

/-- C9: a detail fetch that resolves without error and without data ends with
`isLoading` false, `spacecraft` `null` and the error `Spacecraft not found.`, which
the error return shows as its heading; an `isError` response gives
`Failed to load spacecraft details.` and a rejected call
`An unexpected error occurred.`, both different from it. -/
theorem fetchSpacecraft_no_data_is_not_found (s : State) (id : String)
    (data : Option Spacecraft) :
    (fetchSpacecraft s id (.resolved ⟨false, none⟩)).1 =
      { spacecraft := none, isLoading := false, error := some "Spacecraft not found." } ∧
    (fetchSpacecraft s id (.resolved ⟨true, data⟩)).1 =
      { spacecraft := none, isLoading := false,
        error := some "Failed to load spacecraft details." } ∧
    (fetchSpacecraft s id .rejected).1 =
      { spacecraft := none, isLoading := false, error := some "An unexpected error occurred." } ∧
    (fetchSpacecraft s id (.resolved ⟨false, none⟩)).1.error ≠
      (fetchSpacecraft s id (.resolved ⟨true, data⟩)).1.error ∧
    (fetchSpacecraft s id (.resolved ⟨false, none⟩)).1.error ≠
      (fetchSpacecraft s id .rejected).1.error ∧
    render (fetchSpacecraft s id (.resolved ⟨false, none⟩)).1 id =
      .error "Spacecraft not found." "Unable to load spacecraft details. Please try again." :=
  ⟨rfl, rfl, rfl, fun h => absurd (Option.some.inj h) (by decide),
    fun h => absurd (Option.some.inj h) (by decide), rfl⟩

/-- The state `fetchSpacecraftSettle` leaves is fixed by the outcome of the call
alone; the state it runs on plays no part. -/
theorem fetchSpacecraftSettle_const (s t : State) (api : ApiOutcome Spacecraft) :
    fetchSpacecraftSettle s api = fetchSpacecraftSettle t api := by
  rcases api with ⟨_ | _, _ | _⟩ | _ <;> rfl

/-- Counterexample to C10: the view is mounted for `A` and the route changes to `B`
while the fetch for `A` is pending. When the fetch for `A` then resolves with
`shipA`, the view showing `B` leaves its loading state and displays `shipA`; and
when it resolves after the fetch for `B` has delivered `shipB`, it replaces `shipB`
by `shipA`. -/
theorem stale_fetch_result_is_applied :
    run (mount "A").1 [.routeChange "B"] =
      { id := "B", state := { spacecraft := none, isLoading := true, error := none },
        pending := ["A", "B"] } ∧
    run (mount "A").1 [.routeChange "B", .settle 0 (.resolved ⟨false, some shipA⟩)] =
      { id := "B", state := { spacecraft := some shipA, isLoading := false, error := none },
        pending := ["B"] } ∧
    (run (mount "A").1 [.routeChange "B", .settle 0 (.resolved ⟨false, some shipA⟩)]).state ≠
      (run (mount "A").1 [.routeChange "B"]).state ∧
    render (run (mount "A").1
      [.routeChange "B", .settle 0 (.resolved ⟨false, some shipA⟩)]).state "B" =
      .detail shipA ∧
    run (mount "A").1 [.routeChange "B", .settle 1 (.resolved ⟨false, some shipB⟩)] =
      { id := "B", state := { spacecraft := some shipB, isLoading := false, error := none },
        pending := ["A"] } ∧
    run (mount "A").1 [.routeChange "B", .settle 1 (.resolved ⟨false, some shipB⟩),
        .settle 0 (.resolved ⟨false, some shipA⟩)] =
      { id := "B", state := { spacecraft := some shipA, isLoading := false, error := none },
        pending := [] } := by
  decide

/-- C10, amended: when a fetch for `A` is pending and the route parameter changes to
a different id `B`, the effect starts a fetch for `B` (one `getSpacecraftById` call,
`isLoading` set, `error` cleared) and the fetch for `A` stays pending; when that
fetch settles, the view still shows `B` and its `spacecraft`, `error` and
`isLoading` become exactly what the fetch would leave in a view of `A`. -/
theorem routeChange_refetches_and_stale_result_lands (v : Mounted) (A B : String)
    (index : Nat) (api : ApiOutcome Spacecraft)
    (hA : v.pending[index]? = some A) (hB : B ≠ v.id) :
    (step v (.routeChange B)).2 = [.getSpacecraftById B] ∧
    (step v (.routeChange B)).1.id = B ∧
    (step v (.routeChange B)).1.state = { v.state with isLoading := true, error := none } ∧
    (step v (.routeChange B)).1.pending = v.pending ++ [B] ∧
    (step v (.routeChange B)).1.pending[index]? = some A ∧
    (step (step v (.routeChange B)).1 (.settle index api)).1.id = B ∧
    (step (step v (.routeChange B)).1 (.settle index api)).1.state =
      (fetchSpacecraft {} A api).1 ∧
    (step (step v (.routeChange B)).1 (.settle index api)).1.pending =
      (v.pending ++ [B]).eraseIdx index := by
  have hlt : index < v.pending.length := by
    rcases List.getElem?_eq_some.mp hA with ⟨hlt, _⟩
    exact hlt
  have hroute : step v (.routeChange B) =
      ({ id := B, state := { v.state with isLoading := true, error := none },
         pending := v.pending ++ [B] }, [.getSpacecraftById B]) := by
    simp [step, hB, fetchSpacecraftStart]
  have hlt' : index < (v.pending ++ [B]).length := by
    rw [List.length_append]
    exact Nat.lt_add_right _ hlt
  rw [hroute]
  refine ⟨rfl, rfl, rfl, rfl, ?_, ?_, ?_, ?_⟩
  · show (v.pending ++ [B])[index]? = some A
    rw [List.getElem?_append_left hlt]
    exact hA
  · simp only [step, hlt', if_true]
  · simp only [step, hlt', if_true, fetchSpacecraft]
    exact fetchSpacecraftSettle_const _ _ api
  · simp only [step, hlt', if_true]

/-- Witness of C10, amended: the view mounted for `A` with its fetch pending, the
route changing to `B`, and the fetch for `A` then delivering `shipA`. -/
theorem routeChange_refetches_and_stale_result_lands_witness :
    (mount "A").1.pending[0]? = some "A" ∧ "B" ≠ (mount "A").1.id ∧
    (step (step (mount "A").1 (.routeChange "B")).1
      (.settle 0 (.resolved ⟨false, some shipA⟩))).1.state =
      { spacecraft := some shipA, isLoading := false, error := none } :=
  ⟨by decide, by decide,
    (routeChange_refetches_and_stale_result_lands (mount "A").1 "A" "B" 0
      (.resolved ⟨false, some shipA⟩) (by decide) (by decide)).2.2.2.2.2.2.1.trans
      (by decide)⟩

end SpacecraftPage

/-! ## Properties: the router -/

namespace App

theorem exists_rest_of_head (pathname : String) (h : pathname.data.head? = some '/') :
    ∃ rest, pathname.data = '/' :: rest := by
  cases hd : pathname.data with
  | nil => rw [hd] at h; simp at h
  | cons c cs =>
      rw [hd] at h
      simp at h
      exact ⟨cs, by rw [h]⟩

theorem splitSlash_ne_nil (cs : List Char) : splitSlash cs ≠ [] := by
  cases cs with
  | nil => simp [splitSlash]
  | cons c cs =>
      unfold splitSlash
      split_ifs
      · simp
      · split <;> simp

theorem splitSlash_of_not_mem (a : List Char) (h : '/' ∉ a) : splitSlash a = [a] := by
  induction a with
  | nil => rfl
  | cons c cs ih =>
      have hc : c ≠ '/' := fun e => h (e ▸ List.mem_cons_self _ _)
      have hcs : '/' ∉ cs := fun e => h (List.mem_cons_of_mem _ e)
      simp [splitSlash, hc, ih hcs]

theorem splitSlash_append (a b : List Char) (h : '/' ∉ a) :
    splitSlash (a ++ '/' :: b) = a :: splitSlash b := by
  induction a with
  | nil => simp [splitSlash]
  | cons c cs ih =>
      have hc : c ≠ '/' := fun e => h (e ▸ List.mem_cons_self _ _)
      have hcs : '/' ∉ cs := fun e => h (List.mem_cons_of_mem _ e)
      simp [splitSlash, hc, ih hcs]

theorem segments_detail (id : String) (h : isSegment id) :
    segments (("spacecraft/".data ++ id.data).rdropWhile fun c => c == '/') =
      ["spacecraft".data, id.data] := by
  obtain ⟨hne, hns⟩ := h
  have hkeep : (("spacecraft/".data ++ id.data).rdropWhile fun c => c == '/') =
      "spacecraft/".data ++ id.data := by
    rw [List.rdropWhile_eq_self_iff]
    intro hl
    rw [List.getLast_append_of_ne_nil hne]
    intro hp
    have : id.data.getLast hne = '/' := by simpa using hp
    exact hns (this ▸ List.getLast_mem hne)
  rw [hkeep]
  have hbody : "spacecraft/".data ++ id.data = "spacecraft".data ++ '/' :: id.data := by
    simp
  have hnil : "spacecraft/".data ++ id.data ≠ [] := by simp
  rw [segments, if_neg hnil, hbody, splitSlash_append _ _ (by decide),
    splitSlash_of_not_mem _ hns]

/-- The four fixed paths, once decoded, take their routes whatever the parameter
decoder is. -/
theorem matchRoutes_fixed (decodeParam : String → String) :
    matchRoutes decodeParam routes "/" = some .homePage ∧
    matchRoutes decodeParam routes "/spacecrafts" = some .spacecraftsPage ∧
    matchRoutes decodeParam routes "/construction" = some .constructionPage ∧
    matchRoutes decodeParam routes "/planets" = some .planetsPage :=
  ⟨rfl, rfl, rfl, rfl⟩

theorem matchRoutes_detail (decodeParam : String → String) (id : String)
    (h : isSegment id) :
    matchRoutes decodeParam routes ("/spacecraft/" ++ id) =
      some (.spacecraftPage (some (decodeParam id))) := by
  have hdata : ("/spacecraft/" ++ id).data = '/' :: ("spacecraft/".data ++ id.data) := by
    simp [String.data_append]
  have hseg := segments_detail id h
  have hid : id.data ≠ [] := h.1
  simp only [routes, matchRoutes, matchPath, hdata, hseg]
  simp [segments, splitSlash, compileSegment, matchSegments, foldCase, hid, List.rdropWhile]

theorem matchPath_of_slash (decodeParam : String → String) (pattern pathname : String)
    (rest : List Char) (h : pathname.data = '/' :: rest) (hp : pattern ≠ "*") :
    matchPath decodeParam pattern pathname =
      matchSegments decodeParam
        ((segments ((pattern.data.dropWhile fun c => c == '/').rdropWhile
          fun c => c == '/')).map compileSegment)
        (segments (rest.rdropWhile fun c => c == '/')) := by
  simp only [matchPath, h, if_neg hp]

theorem matchPath_star (decodeParam : String → String) (pathname : String)
    (rest : List Char) (h : pathname.data = '/' :: rest)
    (hline : noLineBreak pathname = true) :
    matchPath decodeParam "*" pathname = some [("*", decodeParam ⟨rest⟩)] := by
  have hrest : (rest.all fun c => !isLineTerminator c) = true := by
    unfold noLineBreak at hline
    rw [h, List.all_cons] at hline
    exact (Bool.and_eq_true _ _ ▸ hline).2
  simp only [matchPath, h, if_true, hrest]

theorem matchPath_of_no_slash (decodeParam : String → String) (pattern pathname : String)
    (h : pathname.data.head? ≠ some '/') : matchPath decodeParam pattern pathname = none := by
  unfold matchPath
  split
  · next rest hd => rw [hd] at h; exact absurd rfl h
  · rfl

theorem at_most_one_pattern (decodeParam : String → String) (pathname : String) :
    (["/", "/spacecrafts", "/spacecraft/:id", "/construction", "/planets"].filter
      fun pattern => (matchPath decodeParam pattern pathname).isSome).length ≤ 1 := by
  by_cases hs : pathname.data.head? = some '/'
  · obtain ⟨rest, hrest⟩ := exists_rest_of_head pathname hs
    have e1 := matchPath_of_slash decodeParam "/" pathname rest hrest (by decide)
    have e2 := matchPath_of_slash decodeParam "/spacecrafts" pathname rest hrest (by decide)
    have e3 := matchPath_of_slash decodeParam "/spacecraft/:id" pathname rest hrest (by decide)
    have e4 := matchPath_of_slash decodeParam "/construction" pathname rest hrest (by decide)
    have e5 := matchPath_of_slash decodeParam "/planets" pathname rest hrest (by decide)
    have c1 : (segments (("/".data.dropWhile fun c => c == '/').rdropWhile
        fun c => c == '/')).map compileSegment = [] := by decide
    have c2 : (segments (("/spacecrafts".data.dropWhile fun c => c == '/').rdropWhile
        fun c => c == '/')).map compileSegment = [.static "spacecrafts".data] := by decide
    have c3 : (segments (("/spacecraft/:id".data.dropWhile fun c => c == '/').rdropWhile
        fun c => c == '/')).map compileSegment =
        [.static "spacecraft".data, .param "id"] := by decide
    have c4 : (segments (("/construction".data.dropWhile fun c => c == '/').rdropWhile
        fun c => c == '/')).map compileSegment = [.static "construction".data] := by decide
    have c5 : (segments (("/planets".data.dropWhile fun c => c == '/').rdropWhile
        fun c => c == '/')).map compileSegment = [.static "planets".data] := by decide
    rw [c1] at e1; rw [c2] at e2; rw [c3] at e3; rw [c4] at e4; rw [c5] at e5
    simp only [List.filter, e1, e2, e3, e4, e5]
    generalize segments (rest.rdropWhile fun c => c == '/') = segs
    rcases segs with _ | ⟨x, _ | ⟨y, _ | ⟨z, t⟩⟩⟩
    · simp [matchSegments]
    · have d24 : "spacecrafts".data.map foldCase ≠ "construction".data.map foldCase := by decide
      have d25 : "spacecrafts".data.map foldCase ≠ "planets".data.map foldCase := by decide
      have d45 : "construction".data.map foldCase ≠ "planets".data.map foldCase := by decide
      simp only [matchSegments, ite_self]
      by_cases h2 : "spacecrafts".data.map foldCase = x.map foldCase
      · have h4 : ¬"construction".data.map foldCase = x.map foldCase :=
          fun h4 => d24 (h2.trans h4.symm)
        have h5 : ¬"planets".data.map foldCase = x.map foldCase :=
          fun h5 => d25 (h2.trans h5.symm)
        rw [if_pos h2, if_neg h4, if_neg h5]
        decide
      · by_cases h4 : "construction".data.map foldCase = x.map foldCase
        · have h5 : ¬"planets".data.map foldCase = x.map foldCase :=
            fun h5 => d45 (h4.trans h5.symm)
          rw [if_neg h2, if_pos h4, if_neg h5]
          decide
        · by_cases h5 : "planets".data.map foldCase = x.map foldCase
          · rw [if_neg h2, if_neg h4, if_pos h5]
            decide
          · rw [if_neg h2, if_neg h4, if_neg h5]
            decide
    · simp only [matchSegments, ite_self, Option.isSome_none]
      split <;> decide
    · simp only [matchSegments, ite_self, Option.map_none', Option.isSome_none]
      decide
  · simp [List.filter, matchPath_of_no_slash decodeParam _ pathname hs]

theorem matchRoutes_isSome (decodeParam : String → String) (pathname : String)
    (h : pathname.data.head? = some '/') (hline : noLineBreak pathname = true) :
    (matchRoutes decodeParam routes pathname).isSome = true := by
  obtain ⟨rest, hrest⟩ := exists_rest_of_head pathname h
  simp only [routes, matchRoutes, matchPath_star decodeParam pathname rest hrest hline]
  repeat' split
  all_goals rfl

/-- A text without `%` has no escapes. -/
theorem pieces_of_no_percent (cs : List Char) (h : '%' ∉ cs) :
    pieces cs = some (cs.map .plain) := by
  induction cs with
  | nil => rfl
  | cons c rest ih =>
      have hc : c ≠ '%' := fun e => h (by simp [e])
      have hr : '%' ∉ rest := fun m => h (List.mem_cons_of_mem _ m)
      unfold pieces
      rw [if_neg hc, ih hr]
      rfl

/-- Characters written as they are decode to themselves. -/
theorem assemble_plain (cs : List Char) : assemble (cs.map .plain) = some cs := by
  induction cs with
  | nil => rfl
  | cons c rest ih =>
      show ((assemble (rest.map .plain)).map fun tail => c :: tail) = some (c :: rest)
      rw [ih]
      rfl

/-- The function `decodeURIComponent` leaves a text without `%` as it is. -/
theorem safelyDecodeURIComponent_of_no_percent (text : String) (h : '%' ∉ text.data) :
    safelyDecodeURIComponent text = text := by
  unfold safelyDecodeURIComponent decodeURIComponent
  rw [pieces_of_no_percent _ h]
  simp [assemble_plain]

/-- With `decodeURIComponent` as the decoder of the path and of the parameters, an
escape in the path is read as the character it stands for: `/%73pacecrafts` is the
fleet list, the id of `/spacecraft/a%20b` is `a b`, and a malformed escape is left as
it is. -/
theorem render_decodes_escapes :
    render safelyDecodeURIComponent safelyDecodeURIComponent "/%73pacecrafts" =
      some .spacecraftsPage ∧
    render safelyDecodeURIComponent safelyDecodeURIComponent "/spacecraft/a%20b" =
      some (.spacecraftPage (some "a b")) ∧
    render safelyDecodeURIComponent safelyDecodeURIComponent "/spacecraft/%zz" =
      some (.spacecraftPage (some "%zz")) := by
  decide

/-- C11: whatever percent-decoding the router applies, provided it leaves texts
without `%` as they are, the router renders the landing view at `/`, the fleet list
at `/spacecrafts`, the detail view with that id at `/spacecraft/{id}` for every id
that is a path segment without `%`, the build form at `/construction` and the
planets view at `/planets`. A path whose decoded form begins with a slash and has no
line terminator renders a view, and renders what `/` renders when it matches none of
the five patterns; no path matches two of the five patterns. -/
theorem render_maps_five_patterns (decodePath decodeParam : String → String)
    (id pathname other : String)
    (hpath : ∀ text : String, '%' ∉ text.data → decodePath text = text)
    (hparam : ∀ text : String, '%' ∉ text.data → decodeParam text = text)
    (hid : isSegment id) (hpercent : '%' ∉ id.data)
    (hslash : (decoded decodePath pathname).data.head? = some '/')
    (hline : noLineBreak (decoded decodePath pathname) = true)
    (hnone : ∀ pattern ∈ ["/", "/spacecrafts", "/spacecraft/:id", "/construction", "/planets"],
      matchPath decodeParam pattern (decoded decodePath pathname) = none)
    (hother : (decoded decodePath other).data.head? = some '/')
    (hotherline : noLineBreak (decoded decodePath other) = true) :
    render decodePath decodeParam "/" = some .homePage ∧
    render decodePath decodeParam "/spacecrafts" = some .spacecraftsPage ∧
    render decodePath decodeParam ("/spacecraft/" ++ id) = some (.spacecraftPage (some id)) ∧
    render decodePath decodeParam "/construction" = some .constructionPage ∧
    render decodePath decodeParam "/planets" = some .planetsPage ∧
    render decodePath decodeParam pathname = render decodePath decodeParam "/" ∧
    (render decodePath decodeParam other).isSome = true ∧
    (["/", "/spacecrafts", "/spacecraft/:id", "/construction", "/planets"].filter
      fun pattern =>
        (matchPath decodeParam pattern (decoded decodePath other)).isSome).length ≤ 1 := by
  obtain ⟨f1, f2, f3, f4⟩ := matchRoutes_fixed decodeParam
  have d1 : decoded decodePath "/" = "/" := hpath "/" (by decide)
  have d2 : decoded decodePath "/spacecrafts" = "/spacecrafts" :=
    hpath "/spacecrafts" (by decide)
  have d3 : decoded decodePath "/construction" = "/construction" :=
    hpath "/construction" (by decide)
  have d4 : decoded decodePath "/planets" = "/planets" := hpath "/planets" (by decide)
  have hdata : ("/spacecraft/" ++ id).data = "/spacecraft/".data ++ id.data := by
    simp [String.data_append]
  have hne : ("/spacecraft/" ++ id) ≠ "" := by
    intro e
    have := congrArg String.data e
    rw [hdata] at this
    simp at this
  have hfree : '%' ∉ ("/spacecraft/" ++ id).data := by
    rw [hdata, List.mem_append]
    rintro (h | h)
    · exact absurd h (by decide)
    · exact hpercent h
  have d5 : decoded decodePath ("/spacecraft/" ++ id) = "/spacecraft/" ++ id := by
    unfold decoded
    rw [if_neg hne]
    exact hpath _ hfree
  have hhome : render decodePath decodeParam "/" = some .homePage := by
    unfold render; rw [d1]; exact f1
  refine ⟨hhome, ?_, ?_, ?_, ?_, ?_, ?_, at_most_one_pattern decodeParam _⟩
  · unfold render; rw [d2]; exact f2
  · unfold render
    rw [d5, matchRoutes_detail decodeParam id hid, hparam id hpercent]
  · unfold render; rw [d3]; exact f3
  · unfold render; rw [d4]; exact f4
  · rw [hhome]
    obtain ⟨rest, hrest⟩ := exists_rest_of_head _ hslash
    have h1 := hnone "/" (by simp)
    have h2 := hnone "/spacecrafts" (by simp)
    have h3 := hnone "/spacecraft/:id" (by simp)
    have h4 := hnone "/construction" (by simp)
    have h5 := hnone "/planets" (by simp)
    simp only [render, routes, matchRoutes, h1, h2, h3, h4, h5,
      matchPath_star decodeParam _ rest hrest hline]
  · exact matchRoutes_isSome decodeParam _ hother hotherline

/-- Witness of C11: the id `a7` and the unmatched path `/no%20where`, with
`decodeURIComponent` as the decoder of the path and of the parameters. -/
theorem render_maps_five_patterns_witness :
    isSegment "a7" ∧
    render safelyDecodeURIComponent safelyDecodeURIComponent "/spacecraft/a7" =
      some (.spacecraftPage (some "a7")) ∧
    render safelyDecodeURIComponent safelyDecodeURIComponent "/no%20where" =
      some .homePage :=
  ⟨by decide,
    (render_maps_five_patterns safelyDecodeURIComponent safelyDecodeURIComponent
      "a7" "/no%20where" "/"
      safelyDecodeURIComponent_of_no_percent safelyDecodeURIComponent_of_no_percent
      (by decide) (by decide) (by decide) (by decide)
      (by decide) (by decide) (by decide)).2.2.1,
    (render_maps_five_patterns safelyDecodeURIComponent safelyDecodeURIComponent
      "a7" "/no%20where" "/"
      safelyDecodeURIComponent_of_no_percent safelyDecodeURIComponent_of_no_percent
      (by decide) (by decide) (by decide) (by decide)
      (by decide) (by decide) (by decide)).2.2.2.2.2.1.trans (by decide)⟩

end App

/-! ## Properties: transferring a spacecraft -/

namespace PlanetsPage

theorem handleTransfer_send_rejected (s : State) (spacecraft : Spacecraft)
    (targetPlanet : Planet) (planetsApi : ApiOutcome (List Planet))
    (spacecraftsApi : ApiOutcome (List Spacecraft))
    (h : transferReady s spacecraft targetPlanet) :
    handleTransfer s true .rejected planetsApi spacecraftsApi =
      ({ s with isTransferring := false },
        [.preventDefault, .confirm ("Send " ++ spacecraft.name ++ " to " ++ targetPlanet.name ++ "?"),
          .sendSpacecraftToPlanet s.selectedSpacecraftId (Number s.selectedPlanetId),
          .alert "An unexpected error occurred."]) := by
  obtain ⟨h1, h2, h3, h4, h5⟩ := h
  unfold handleTransfer
  simp [(truthy_eq_true_iff _).mpr h1, (truthy_eq_true_iff _).mpr h2, h3, h4, h5]

theorem handleTransfer_send_error (s : State) (spacecraft : Spacecraft)
    (targetPlanet : Planet) (data : Option TransferData)
    (planetsApi : ApiOutcome (List Planet)) (spacecraftsApi : ApiOutcome (List Spacecraft))
    (h : transferReady s spacecraft targetPlanet) :
    handleTransfer s true (.resolved ⟨true, data⟩) planetsApi spacecraftsApi =
      ({ s with isTransferring := false },
        [.preventDefault, .confirm ("Send " ++ spacecraft.name ++ " to " ++ targetPlanet.name ++ "?"),
          .sendSpacecraftToPlanet s.selectedSpacecraftId (Number s.selectedPlanetId),
          .alert (match data with
            | some d => if truthyOpt d.message then d.message.getD "" else "Transfer failed"
            | none => "An unexpected error occurred.")]) := by
  obtain ⟨h1, h2, h3, h4, h5⟩ := h
  unfold handleTransfer
  cases data <;>
    simp [(truthy_eq_true_iff _).mpr h1, (truthy_eq_true_iff _).mpr h2, h3, h4, h5]

theorem handleTransfer_refetched (s : State) (spacecraft : Spacecraft)
    (targetPlanet : Planet) (data : Option TransferData)
    (planetsResponse : ApiResponse (List Planet))
    (spacecraftsResponse : ApiResponse (List Spacecraft))
    (h : transferReady s spacecraft targetPlanet) :
    handleTransfer s true (.resolved ⟨false, data⟩) (.resolved planetsResponse)
        (.resolved spacecraftsResponse) =
      ({ s with planets := planetsResponse.data, spacecrafts := spacecraftsResponse.data,
                selectedSpacecraftId := "", selectedPlanetId := "", isTransferring := false },
        [.preventDefault, .confirm ("Send " ++ spacecraft.name ++ " to " ++ targetPlanet.name ++ "?"),
          .sendSpacecraftToPlanet s.selectedSpacecraftId (Number s.selectedPlanetId),
          .getPlanets, .getSpacecrafts, .alert "Transfer successful!"]) := by
  obtain ⟨h1, h2, h3, h4, h5⟩ := h
  unfold handleTransfer
  simp [(truthy_eq_true_iff _).mpr h1, (truthy_eq_true_iff _).mpr h2, h3, h4, h5]

theorem handleTransfer_refetch_rejected (s : State) (spacecraft : Spacecraft)
    (targetPlanet : Planet) (data : Option TransferData)
    (planetsApi : ApiOutcome (List Planet)) (spacecraftsApi : ApiOutcome (List Spacecraft))
    (h : transferReady s spacecraft targetPlanet)
    (hr : planetsApi = .rejected ∨ spacecraftsApi = .rejected) :
    handleTransfer s true (.resolved ⟨false, data⟩) planetsApi spacecraftsApi =
      ({ s with isTransferring := false },
        [.preventDefault, .confirm ("Send " ++ spacecraft.name ++ " to " ++ targetPlanet.name ++ "?"),
          .sendSpacecraftToPlanet s.selectedSpacecraftId (Number s.selectedPlanetId),
          .getPlanets, .getSpacecrafts, .alert "An unexpected error occurred."]) := by
  obtain ⟨h1, h2, h3, h4, h5⟩ := h
  unfold handleTransfer
  rcases planetsApi with pr | _ <;> rcases spacecraftsApi with sr | _
  · rcases hr with hr | hr <;> cases hr
  all_goals
    simp [(truthy_eq_true_iff _).mpr h1, (truthy_eq_true_iff _).mpr h2, h3, h4, h5]

/-- Counterexample to C12: `Ark` is sent from planet 1 to planet 2, the send call
succeeds, the `getPlanets` re-fetch rejects and the `getSpacecrafts` re-fetch delivers
`[shipB]`. Both re-fetch calls are made, but the lists in view state stay as they
were and the two selections are not reset. -/
theorem transfer_refetch_rejection_keeps_state :
    transferReady readySelection shipA venus ∧
    (handleTransfer readySelection true (.resolved ⟨false, none⟩) .rejected
      (.resolved ⟨false, some [shipB]⟩)).2 =
      [.preventDefault, .confirm "Send Ark to Venus?",
        .sendSpacecraftToPlanet "A" (.fin false 1 1), .getPlanets, .getSpacecrafts,
        .alert "An unexpected error occurred."] ∧
    (handleTransfer readySelection true (.resolved ⟨false, none⟩) .rejected
      (.resolved ⟨false, some [shipB]⟩)).1.spacecrafts = some [shipA, shipB] ∧
    (handleTransfer readySelection true (.resolved ⟨false, none⟩) .rejected
      (.resolved ⟨false, some [shipB]⟩)).1.spacecrafts ≠ some [shipB] ∧
    (handleTransfer readySelection true (.resolved ⟨false, none⟩) .rejected
      (.resolved ⟨false, some [shipB]⟩)).1.selectedSpacecraftId = "A" ∧
    (handleTransfer readySelection true (.resolved ⟨false, none⟩) .rejected
      (.resolved ⟨false, some [shipB]⟩)).1.selectedPlanetId = "2" := by
  decide

/-- C12, amended: for a confirmed, valid transfer whose send call resolves without
error, `handleTransfer` makes both re-fetch calls after the send call and ends with
`isTransferring` false, however the re-fetches settle. When both re-fetches resolve
with responses that are not errors, `planets` and `spacecrafts` become the fetched
lists and both selections become empty. When a re-fetch rejects, the lists and the
selections stay as they were and the alert is `An unexpected error occurred.`. -/
theorem handleTransfer_success_refetches_both (s : State) (spacecraft : Spacecraft)
    (targetPlanet : Planet) (data : Option TransferData)
    (planetsApi : ApiOutcome (List Planet)) (spacecraftsApi : ApiOutcome (List Spacecraft))
    (planetsData : Option (List Planet)) (spacecraftsData : Option (List Spacecraft))
    (h : transferReady s spacecraft targetPlanet) :
    (handleTransfer s true (.resolved ⟨false, data⟩) planetsApi spacecraftsApi).2.filter
        Effect.isApiCall =
      [.sendSpacecraftToPlanet s.selectedSpacecraftId (Number s.selectedPlanetId),
        .getPlanets, .getSpacecrafts] ∧
    (handleTransfer s true (.resolved ⟨false, data⟩) planetsApi
      spacecraftsApi).1.isTransferring = false ∧
    (handleTransfer s true (.resolved ⟨false, data⟩) (.resolved ⟨false, planetsData⟩)
        (.resolved ⟨false, spacecraftsData⟩)).1 =
      { s with planets := planetsData, spacecrafts := spacecraftsData,
               selectedSpacecraftId := "", selectedPlanetId := "", isTransferring := false } ∧
    ((planetsApi = .rejected ∨ spacecraftsApi = .rejected) →
      (handleTransfer s true (.resolved ⟨false, data⟩) planetsApi spacecraftsApi).1 =
        { s with isTransferring := false } ∧
      (handleTransfer s true (.resolved ⟨false, data⟩) planetsApi spacecraftsApi).2.filter
        Effect.isAlert = [.alert "An unexpected error occurred."]) := by
  have hcases : (∃ pr sr, planetsApi = .resolved pr ∧ spacecraftsApi = .resolved sr) ∨
      (planetsApi = .rejected ∨ spacecraftsApi = .rejected) := by
    rcases planetsApi with pr | _ <;> rcases spacecraftsApi with sr | _
    · exact Or.inl ⟨pr, sr, rfl, rfl⟩
    · exact Or.inr (Or.inr rfl)
    · exact Or.inr (Or.inl rfl)
    · exact Or.inr (Or.inl rfl)
  refine ⟨?_, ?_, ?_, ?_⟩
  · rcases hcases with ⟨pr, sr, hp, hs⟩ | hr
    · rw [hp, hs, handleTransfer_refetched s spacecraft targetPlanet data pr sr h]
      rfl
    · rw [handleTransfer_refetch_rejected s spacecraft targetPlanet data _ _ h hr]
      rfl
  · rcases hcases with ⟨pr, sr, hp, hs⟩ | hr
    · rw [hp, hs, handleTransfer_refetched s spacecraft targetPlanet data pr sr h]
    · rw [handleTransfer_refetch_rejected s spacecraft targetPlanet data _ _ h hr]
  · rw [handleTransfer_refetched s spacecraft targetPlanet data _ _ h]
  · intro hr
    rw [handleTransfer_refetch_rejected s spacecraft targetPlanet data _ _ h hr]
    exact ⟨rfl, rfl⟩

/-- Witness of C12, amended: `Ark` is sent to planet 2 and both re-fetches deliver. -/
theorem handleTransfer_success_refetches_both_witness :
    transferReady readySelection shipA venus ∧
    (handleTransfer readySelection true (.resolved ⟨false, none⟩)
        (.resolved ⟨false, some [venus]⟩) (.resolved ⟨false, some [shipB]⟩)).1 =
      { planets := some [venus], spacecrafts := some [shipB], isLoading := false } :=
  ⟨by decide,
    (handleTransfer_success_refetches_both readySelection shipA venus none .rejected .rejected
      (some [venus]) (some [shipB]) (by decide)).2.2.1.trans (by decide)⟩

/-- C13, at the failing input: after a successful send, the `getPlanets` re-fetch
resolves with `isError` set and no data. `handleTransfer` stores that response's data
as `planets`, which wipes the loaded list, clears the form and announces success;
the same two responses given to `fetchData` on mount store nothing and set the
error. -/
theorem refetch_stores_data_of_error_response :
    transferReady readySelection shipA venus ∧
    readySelection.planets = some [mars, venus] ∧
    handleTransfer readySelection true (.resolved ⟨false, none⟩) (.resolved ⟨true, none⟩)
        (.resolved ⟨false, some [shipB]⟩) =
      ({ planets := none, spacecrafts := some [shipB], isLoading := false },
        [.preventDefault, .confirm "Send Ark to Venus?",
          .sendSpacecraftToPlanet "A" (.fin false 1 1), .getPlanets, .getSpacecrafts,
          .alert "Transfer successful!"]) ∧
    (fetchData {} (.resolved ⟨true, none⟩) (.resolved ⟨false, some [shipB]⟩)).1 =
      { isLoading := false, error := some "Failed to load data. Please try again." } := by
  decide

/-- C18: for a confirmed, valid transfer whose send call resolves with `isError`,
`handleTransfer` shows one alert: the response's `message` when the data object has
a non-empty one, `Transfer failed` when the data object has none, and
`An unexpected error occurred.` when there is no data object. The send call is the
only API call (no re-fetch), `planets`, `spacecrafts` and both selections are left
as they were, and `isTransferring` ends false. -/
theorem handleTransfer_error_response_reports (s : State) (spacecraft : Spacecraft)
    (targetPlanet : Planet) (data : Option TransferData)
    (planetsApi : ApiOutcome (List Planet)) (spacecraftsApi : ApiOutcome (List Spacecraft))
    (h : transferReady s spacecraft targetPlanet) :
    (handleTransfer s true (.resolved ⟨true, data⟩) planetsApi spacecraftsApi).2.filter
        Effect.isAlert =
      [.alert (match data with
        | some d => if truthyOpt d.message then d.message.getD "" else "Transfer failed"
        | none => "An unexpected error occurred.")] ∧
    (handleTransfer s true (.resolved ⟨true, data⟩) planetsApi spacecraftsApi).2.filter
        Effect.isApiCall =
      [.sendSpacecraftToPlanet s.selectedSpacecraftId (Number s.selectedPlanetId)] ∧
    (handleTransfer s true (.resolved ⟨true, data⟩) planetsApi spacecraftsApi).1.planets =
      s.planets ∧
    (handleTransfer s true (.resolved ⟨true, data⟩) planetsApi spacecraftsApi).1.spacecrafts =
      s.spacecrafts ∧
    (handleTransfer s true (.resolved ⟨true, data⟩) planetsApi
      spacecraftsApi).1.selectedSpacecraftId = s.selectedSpacecraftId ∧
    (handleTransfer s true (.resolved ⟨true, data⟩) planetsApi
      spacecraftsApi).1.selectedPlanetId = s.selectedPlanetId ∧
    (handleTransfer s true (.resolved ⟨true, data⟩) planetsApi
      spacecraftsApi).1.isTransferring = false := by
  rw [handleTransfer_send_error s spacecraft targetPlanet data planetsApi spacecraftsApi h]
  exact ⟨rfl, rfl, rfl, rfl, rfl, rfl, rfl⟩

/-- Witness of C18: the server refuses the transfer of `Ark` with a message. -/
theorem handleTransfer_error_response_reports_witness :
    transferReady readySelection shipA venus ∧
    (handleTransfer readySelection true (.resolved ⟨true, some ⟨some "No fuel"⟩⟩) .rejected
      .rejected).2.filter Effect.isAlert = [.alert "No fuel"] :=
  ⟨by decide,
    (handleTransfer_error_response_reports readySelection shipA venus (some ⟨some "No fuel"⟩)
      .rejected .rejected (by decide)).1.trans (by decide)⟩

end PlanetsPage

/-! ## Properties: trimming -/

theorem trimChars_eq (cs : List Char) :
    trimChars cs = (cs.dropWhile isStrWhiteSpaceChar).rdropWhile isStrWhiteSpaceChar := rfl

theorem rdropWhile_cons_of_neg {α : Type} (p : α → Bool) (a : α) (l : List α)
    (h : p a = false) : (a :: l).rdropWhile p = a :: l.rdropWhile p := by
  induction l using List.reverseRecOn with
  | nil =>
      have h1 := List.rdropWhile_concat_neg p ([] : List α) a (by simp [h])
      simpa using h1
  | append_singleton l x ih =>
      rw [← List.cons_append, List.rdropWhile_concat, List.rdropWhile_concat]
      split_ifs
      · exact ih
      · rfl

/-- The first and the last character of a trimmed string are not white space. -/
theorem trimChars_ends (cs : List Char) :
    (∀ c, (trimChars cs).head? = some c → isStrWhiteSpaceChar c = false) ∧
    (∀ c, (trimChars cs).getLast? = some c → isStrWhiteSpaceChar c = false) := by
  rw [trimChars_eq]
  constructor
  · intro c hc
    obtain ⟨r, hr⟩ := List.head?_eq_some_iff.mp hc
    obtain ⟨t, ht⟩ := List.rdropWhile_prefix isStrWhiteSpaceChar
      (l := cs.dropWhile isStrWhiteSpaceChar)
    rw [hr] at ht
    have hnot := List.head?_dropWhile_not isStrWhiteSpaceChar cs
    rw [← ht] at hnot
    simpa using hnot
  · intro c hc
    have hne : (cs.dropWhile isStrWhiteSpaceChar).rdropWhile isStrWhiteSpaceChar ≠ [] := by
      intro e
      rw [e] at hc
      simp at hc
    have hlast := List.rdropWhile_last_not isStrWhiteSpaceChar _ hne
    rw [List.getLast?_eq_getLast _ hne] at hc
    have hcc : ((cs.dropWhile isStrWhiteSpaceChar).rdropWhile isStrWhiteSpaceChar).getLast hne
        = c := Option.some.inj hc
    rw [hcc] at hlast
    simpa using hlast

/-- Trimming gives the empty string exactly for strings made of white space only. -/
theorem trim_eq_empty_iff (s : String) :
    trim s = "" ↔ ∀ c ∈ s.data, isStrWhiteSpaceChar c = true := by
  rw [String.ext_iff]
  show trimChars s.data = [] ↔ _
  rw [trimChars_eq]
  constructor
  · intro h
    by_contra hall
    have hd : s.data.dropWhile isStrWhiteSpaceChar ≠ [] := by
      rwa [ne_eq, List.dropWhile_eq_nil_iff]
    obtain ⟨a, r, har⟩ := List.exists_cons_of_ne_nil hd
    have hnot := List.head?_dropWhile_not isStrWhiteSpaceChar s.data
    rw [har] at hnot
    have ha : isStrWhiteSpaceChar a = false := by simpa using hnot
    rw [har, rdropWhile_cons_of_neg _ a r ha] at h
    exact absurd h (by simp)
  · intro hall
    rw [List.dropWhile_eq_nil_iff.mpr hall]
    rfl

/-- A string that starts with `http` still does once trimmed. -/
theorem startsWith_http_trim (s : String) (h : startsWith s "http" = true) :
    startsWith (trim s) "http" = true ∧
    ∃ rest, (trim s).data = "http".data ++ rest := by
  unfold startsWith at h
  rw [List.isPrefixOf_iff_prefix] at h
  obtain ⟨t, ht⟩ := h
  have hdata : (trim s).data = "http".data ++ t.rdropWhile isStrWhiteSpaceChar := by
    show trimChars s.data = _
    rw [trimChars_eq, ← ht]
    show (List.dropWhile isStrWhiteSpaceChar ('h' :: 't' :: 't' :: 'p' :: t)).rdropWhile
      isStrWhiteSpaceChar = 'h' :: 't' :: 't' :: 'p' :: t.rdropWhile isStrWhiteSpaceChar
    rw [List.dropWhile_cons_of_neg (by decide),
      rdropWhile_cons_of_neg _ _ _ (by decide), rdropWhile_cons_of_neg _ _ _ (by decide),
      rdropWhile_cons_of_neg _ _ _ (by decide), rdropWhile_cons_of_neg _ _ _ (by decide)]
  refine ⟨?_, _, hdata⟩
  unfold startsWith
  rw [List.isPrefixOf_iff_prefix, hdata]
  exact List.prefix_append _ _

/-! ## Properties: what the Build form sends -/

namespace ConstructionPage

/-- For a form that passes `validateForm`, the capacity `handleSubmit` sends to
`buildSpacecraft` is `Number(capacity)`, which is not `NaN` and is greater than
zero. -/
theorem sent_capacity_is_positive (s : State) (api : ApiOutcome Unit)
    (h : (validateForm s).keys = []) :
    (handleSubmit s api).2.filter Effect.isBuild = [.buildSpacecraft (payload s)] ∧
    (payload s).capacity = Number s.capacity ∧
    (payload s).capacity.isNaN = false ∧
    (payload s).capacity.gtZero = true := by
  have hv := not_bad_of_keys_eq_nil s h
  have hcap : ¬capacityBad s := fun hc => hv (Or.inr (Or.inl hc))
  unfold capacityBad at hcap
  simp only [not_or, Bool.not_eq_true] at hcap
  obtain ⟨_, hnan, hle⟩ := hcap
  have hnan' : (Number s.capacity).isNaN = false := hnan
  have hgt : (Number s.capacity).gtZero = true := by
    have := JSNumber.leZero_eq_not_gtZero (Number s.capacity) hnan'
    rw [hle] at this
    cases hg : (Number s.capacity).gtZero
    · rw [hg] at this; simp at this
    · rfl
  refine ⟨?_, rfl, hnan', hgt⟩
  rcases api with ⟨_ | _, d⟩ | _
  · rw [handleSubmit_valid_success s d hv]; rfl
  · rw [handleSubmit_valid_error s d hv]; rfl
  · rw [handleSubmit_valid_rejected s hv]; rfl

/-- A number that has an integer value is an integer for `Number.isInteger`. -/
theorem isInteger_of_toInt (x : JSNumber) (n : Int) (h : x.toInt? = some n) :
    x.isInteger = true := by
  cases x with
  | nan => simp [JSNumber.toInt?] at h
  | inf neg => simp [JSNumber.toInt?] at h
  | fin neg m e =>
      simp only [JSNumber.toInt?] at h
      simp only [JSNumber.isInteger]
      by_cases he : 0 ≤ e
      · simp [he]
      · rw [if_neg he] at h
        by_cases hm : m % 2 ^ (-e).toNat = 0
        · simp [hm]
        · rw [if_neg hm] at h
          exact absurd h (by simp)

/-- The function `validateForm` alone accepts the capacity `1.5`; the capacity input
does not let it be submitted. -/
theorem fractional_capacity_is_not_submitted :
    (validateForm fractionalForm).keys = [] ∧
    (payload fractionalForm).capacity = .fin false 3 (-1) ∧
    capacityInput.allows fractionalForm.capacity = false := by
  decide

/-- C14: for a form that the browser lets submit (the capacity input allows the
value) and that passes `validateForm`, the capacity `handleSubmit` sends to
`buildSpacecraft` is `Number(capacity)`, which is an integer and is at least 1,
hence a positive integer. -/
theorem sent_capacity_is_positive_integer (s : State) (api : ApiOutcome Unit)
    (hinput : capacityInput.allows s.capacity = true) (h : (validateForm s).keys = []) :
    (handleSubmit s api).2.filter Effect.isBuild = [.buildSpacecraft (payload s)] ∧
    (payload s).capacity = Number s.capacity ∧
    (∃ n : Int, (payload s).capacity.toInt? = some n ∧ 1 ≤ n) ∧
    (payload s).capacity.isInteger = true ∧
    (payload s).capacity.gtZero = true := by
  obtain ⟨hsent, hnum, _, hpos⟩ := sent_capacity_is_positive s api h
  have hv := not_bad_of_keys_eq_nil s h
  have hne : s.capacity ≠ "" := fun e => hv (Or.inr (Or.inl (Or.inl e)))
  have hint : ∃ n : Int, (Number s.capacity).toInt? = some n ∧ 1 ≤ n := by
    unfold NumberInput.allows at hinput
    rw [Bool.or_eq_true] at hinput
    rcases hinput with hempty | hvalid
    · exact absurd (by simpa using hempty) hne
    · rw [Bool.and_eq_true] at hvalid
      have hstep := hvalid.2
      cases hn : (Number s.capacity).toInt? with
      | none => rw [hn] at hstep; exact absurd hstep (by simp)
      | some n =>
          rw [hn] at hstep
          simp only [Bool.and_eq_true, decide_eq_true_eq] at hstep
          exact ⟨n, rfl, hstep.1⟩
  obtain ⟨n, hn, hle⟩ := hint
  exact ⟨hsent, hnum, ⟨n, hn, hle⟩, isInteger_of_toInt _ n hn, hpos⟩

/-- Witness of C14: the form `Ark` / `12` / `d`, which sends the capacity 12. -/
theorem sent_capacity_is_positive_integer_witness :
    capacityInput.allows "12" = true ∧
    (validateForm { name := "Ark", capacity := "12", description := "d" }).keys = [] ∧
    (payload { name := "Ark", capacity := "12", description := "d" }).capacity.isInteger =
      true :=
  ⟨by decide, by decide,
    (sent_capacity_is_positive_integer { name := "Ark", capacity := "12", description := "d" }
      .rejected (by decide) (by decide)).2.2.2.1⟩

/-- C16: each of the four change handlers sets its own field to the new value, leaves
its own entry of `errors` falsy (so no message is shown for the field), and leaves
the other three fields, the other three entries of `errors` and `isSubmitting` as
they were. -/
theorem change_handlers_touch_own_field_only (s : State) (value : String) :
    ((handleNameChange s value).name = value ∧
      (handleNameChange s value).errors.name.truthy = false ∧
      (handleNameChange s value).capacity = s.capacity ∧
      (handleNameChange s value).description = s.description ∧
      (handleNameChange s value).pictureUrl = s.pictureUrl ∧
      (handleNameChange s value).errors.capacity = s.errors.capacity ∧
      (handleNameChange s value).errors.description = s.errors.description ∧
      (handleNameChange s value).errors.pictureUrl = s.errors.pictureUrl ∧
      (handleNameChange s value).isSubmitting = s.isSubmitting) ∧
    ((handleCapacityChange s value).capacity = value ∧
      (handleCapacityChange s value).errors.capacity.truthy = false ∧
      (handleCapacityChange s value).name = s.name ∧
      (handleCapacityChange s value).description = s.description ∧
      (handleCapacityChange s value).pictureUrl = s.pictureUrl ∧
      (handleCapacityChange s value).errors.name = s.errors.name ∧
      (handleCapacityChange s value).errors.description = s.errors.description ∧
      (handleCapacityChange s value).errors.pictureUrl = s.errors.pictureUrl ∧
      (handleCapacityChange s value).isSubmitting = s.isSubmitting) ∧
    ((handleDescriptionChange s value).description = value ∧
      (handleDescriptionChange s value).errors.description.truthy = false ∧
      (handleDescriptionChange s value).name = s.name ∧
      (handleDescriptionChange s value).capacity = s.capacity ∧
      (handleDescriptionChange s value).pictureUrl = s.pictureUrl ∧
      (handleDescriptionChange s value).errors.name = s.errors.name ∧
      (handleDescriptionChange s value).errors.capacity = s.errors.capacity ∧
      (handleDescriptionChange s value).errors.pictureUrl = s.errors.pictureUrl ∧
      (handleDescriptionChange s value).isSubmitting = s.isSubmitting) ∧
    ((handlePictureUrlChange s value).pictureUrl = value ∧
      (handlePictureUrlChange s value).errors.pictureUrl.truthy = false ∧
      (handlePictureUrlChange s value).name = s.name ∧
      (handlePictureUrlChange s value).capacity = s.capacity ∧
      (handlePictureUrlChange s value).description = s.description ∧
      (handlePictureUrlChange s value).errors.name = s.errors.name ∧
      (handlePictureUrlChange s value).errors.capacity = s.errors.capacity ∧
      (handlePictureUrlChange s value).errors.description = s.errors.description ∧
      (handlePictureUrlChange s value).isSubmitting = s.isSubmitting) := by
  refine ⟨?_, ?_, ?_, ?_⟩
  · unfold handleNameChange
    cases h : s.errors.name.truthy
    · rw [if_neg Bool.false_ne_true]
      exact ⟨rfl, h, rfl, rfl, rfl, rfl, rfl, rfl, rfl⟩
    · rw [if_pos rfl]
      exact ⟨rfl, rfl, rfl, rfl, rfl, rfl, rfl, rfl, rfl⟩
  · unfold handleCapacityChange
    cases h : s.errors.capacity.truthy
    · rw [if_neg Bool.false_ne_true]
      exact ⟨rfl, h, rfl, rfl, rfl, rfl, rfl, rfl, rfl⟩
    · rw [if_pos rfl]
      exact ⟨rfl, rfl, rfl, rfl, rfl, rfl, rfl, rfl, rfl⟩
  · unfold handleDescriptionChange
    cases h : s.errors.description.truthy
    · rw [if_neg Bool.false_ne_true]
      exact ⟨rfl, h, rfl, rfl, rfl, rfl, rfl, rfl, rfl⟩
    · rw [if_pos rfl]
      exact ⟨rfl, rfl, rfl, rfl, rfl, rfl, rfl, rfl, rfl⟩
  · unfold handlePictureUrlChange
    cases h : s.errors.pictureUrl.truthy
    · rw [if_neg Bool.false_ne_true]
      exact ⟨rfl, h, rfl, rfl, rfl, rfl, rfl, rfl, rfl⟩
    · rw [if_pos rfl]
      exact ⟨rfl, rfl, rfl, rfl, rfl, rfl, rfl, rfl, rfl⟩

/-- C19, at the failing input: the picture URL `httpx://example.com/a.png` starts
with neither `http://` nor `https://`, yet `validateForm` records no error for it
and `handleSubmit` sends it to `buildSpacecraft`. -/
theorem httpx_url_is_accepted :
    startsWith httpxForm.pictureUrl "http://" = false ∧
    startsWith httpxForm.pictureUrl "https://" = false ∧
    validateForm httpxForm = {} ∧
    (handleSubmit httpxForm (.resolved ⟨false, none⟩)).2.filter Effect.isBuild =
      [.buildSpacecraft
        { name := "Ark", capacity := .fin false 3 2, description := "d",
          pictureUrl := some "httpx://example.com/a.png" }] := by
  decide

/-- C20: for a form that passes validation, the name and the description of the
payload are non-empty and neither begin nor end with white space; the picture URL of
the payload is absent exactly when the field holds white space only, and otherwise it
is the trimmed field, which begins with `http` as the untrimmed field does and
neither begins nor ends with white space. -/
theorem payload_texts_are_trimmed (s : State) (url : String)
    (h : (validateForm s).keys = []) :
    ((payload s).name ≠ "" ∧
      (∀ c, (payload s).name.data.head? = some c → isStrWhiteSpaceChar c = false) ∧
      (∀ c, (payload s).name.data.getLast? = some c → isStrWhiteSpaceChar c = false)) ∧
    ((payload s).description ≠ "" ∧
      (∀ c, (payload s).description.data.head? = some c → isStrWhiteSpaceChar c = false) ∧
      (∀ c, (payload s).description.data.getLast? = some c →
        isStrWhiteSpaceChar c = false)) ∧
    ((payload s).pictureUrl = none ↔ ∀ c ∈ s.pictureUrl.data, isStrWhiteSpaceChar c = true) ∧
    ((payload s).pictureUrl = some url →
      url = trim s.pictureUrl ∧ url ≠ "" ∧
      startsWith url "http" = true ∧ startsWith s.pictureUrl "http" = true ∧
      (∀ c, url.data.head? = some c → isStrWhiteSpaceChar c = false) ∧
      (∀ c, url.data.getLast? = some c → isStrWhiteSpaceChar c = false)) := by
  have hv := not_bad_of_keys_eq_nil s h
  have hname : trim s.name ≠ "" := fun e => hv (Or.inl e)
  have hdesc : trim s.description ≠ "" := fun e => hv (Or.inr (Or.inr (Or.inl e)))
  have hpic : ¬pictureUrlBad s := fun e => hv (Or.inr (Or.inr (Or.inr e)))
  refine ⟨⟨hname, trimChars_ends s.name.data⟩, ⟨hdesc, trimChars_ends s.description.data⟩,
    ?_, ?_⟩
  · rw [← trim_eq_empty_iff]
    have hpay : (payload s).pictureUrl =
        if truthy (trim s.pictureUrl) then some (trim s.pictureUrl) else none := rfl
    by_cases hb : trim s.pictureUrl = ""
    · rw [hpay, (truthy_eq_false_iff _).mpr hb, if_neg Bool.false_ne_true]
      exact ⟨fun _ => hb, fun _ => rfl⟩
    · rw [hpay, (truthy_eq_true_iff _).mpr hb, if_pos rfl]
      exact ⟨fun e => absurd e (by simp), fun e => absurd e hb⟩
  · intro hsome
    by_cases hb : trim s.pictureUrl = ""
    · have hnone : (payload s).pictureUrl = none := by
        unfold payload
        simp [(truthy_eq_false_iff _).mpr hb]
      rw [hnone] at hsome
      exact absurd hsome (by simp)
    · have hval : (payload s).pictureUrl = some (trim s.pictureUrl) := by
        unfold payload
        simp [(truthy_eq_true_iff _).mpr hb]
      rw [hval] at hsome
      have hurl : url = trim s.pictureUrl := (Option.some.inj hsome).symm
      have hstart : startsWith s.pictureUrl "http" = true := by
        cases hst : startsWith s.pictureUrl "http"
        · exact absurd ⟨hb, hst⟩ hpic
        · rfl
      rw [hurl]
      exact ⟨rfl, hb, (startsWith_http_trim s.pictureUrl hstart).1, hstart,
        trimChars_ends s.pictureUrl.data⟩

/-- Witness of C20: a form with spaces around its name, description and URL. -/
theorem payload_texts_are_trimmed_witness :
    (validateForm paddedForm).keys = [] ∧
    (payload paddedForm).pictureUrl = some "https://example.com/a.png" ∧
    startsWith "https://example.com/a.png" "http" = true :=
  ⟨by decide, by decide,
    ((payload_texts_are_trimmed paddedForm "https://example.com/a.png" (by decide)).2.2.2
      (by decide)).2.2.1⟩

end ConstructionPage

/-! ## Properties: failed destroys and the submitting flags -/

/-- C17: a confirmed destroy whose call resolves with `isError` or rejects leaves
the state as it was, on the fleet list and on the detail view, shows one alert (a
failure message) and, on the detail view, does not navigate. -/
theorem handleDestroy_failure_keeps_state (l : SpacecraftsPage.State)
    (d : SpacecraftPage.State) (spacecraft : Spacecraft) (id name : String)
    (api : ApiOutcome Unit) (hfail : api.failed = true) :
    (SpacecraftsPage.handleDestroy l id name true api).1 = l ∧
    (SpacecraftsPage.handleDestroy l id name true api).2.filter Effect.isAlert =
      [.alert (match api with
        | .rejected => "An unexpected error occurred."
        | .resolved _ => "Failed to destroy spacecraft. Please try again.")] ∧
    (SpacecraftsPage.handleDestroy l id name true api).2.filter Effect.isNavigate = [] ∧
    SpacecraftPage.handleDestroy { d with spacecraft := some spacecraft } id true api =
      .done { d with spacecraft := some spacecraft }
        [.confirm ("Are you sure you want to destroy " ++ spacecraft.name ++
          "? This action cannot be undone."),
          .destroySpacecraftById id,
          .alert (match api with
            | .rejected => "An unexpected error occurred."
            | .resolved _ => "Failed to destroy spacecraft.")] := by
  rcases api with ⟨_ | _, data⟩ | _
  · exact absurd hfail (by simp [ApiOutcome.failed])
  · exact ⟨rfl, rfl, rfl, rfl⟩
  · exact ⟨rfl, rfl, rfl, rfl⟩

/-- Witness of C17: the server refuses to destroy `A` in the fleet
`[shipA, shipB]`. -/
theorem handleDestroy_failure_keeps_state_witness :
    (ApiOutcome.resolved (⟨true, none⟩ : ApiResponse Unit)).failed = true ∧
    (SpacecraftsPage.handleDestroy { spacecrafts := some [shipA, shipB], isLoading := false }
      "A" "Ark" true (.resolved ⟨true, none⟩)).1.spacecrafts = some [shipA, shipB] :=
  ⟨by decide,
    congrArg SpacecraftsPage.State.spacecrafts
      (handleDestroy_failure_keeps_state
        { spacecrafts := some [shipA, shipB], isLoading := false } {} shipA "A" "Ark"
        (.resolved ⟨true, none⟩) (by decide)).1⟩

/-- Counterexample to C15: the form `Ark` / `12` / `d` passes validation and the
`buildSpacecraft` call resolves without error; `handleSubmit` alerts, navigates, and
leaves `isSubmitting` true. -/
theorem build_success_leaves_isSubmitting_true :
    (ConstructionPage.validateForm { name := "Ark", capacity := "12", description := "d" }).keys
      = [] ∧
    ConstructionPage.handleSubmit { name := "Ark", capacity := "12", description := "d" }
        (.resolved ⟨false, none⟩) =
      ({ name := "Ark", capacity := "12", description := "d", isSubmitting := true },
        [.preventDefault,
          .buildSpacecraft
            { name := "Ark", capacity := .fin false 3 2, description := "d",
              pictureUrl := none },
          .alert "Ark has been successfully built!", .navigate "/spacecrafts"]) := by
  decide

/-- C15, amended: after a successful submission the Transfer flow is idle again:
once the send call has resolved without error and the re-fetches have settled,
`isTransferring` is false. The Build flow ends a successful submission by navigating
to `/spacecrafts` with `isSubmitting` still true. -/
theorem flags_after_success (s : ConstructionPage.State) (data : Option Unit)
    (t : PlanetsPage.State) (spacecraft : Spacecraft) (targetPlanet : Planet)
    (transferData : Option TransferData) (planetsApi : ApiOutcome (List Planet))
    (spacecraftsApi : ApiOutcome (List Spacecraft))
    (hvalid : (ConstructionPage.validateForm s).keys = [])
    (hready : PlanetsPage.transferReady t spacecraft targetPlanet) :
    (PlanetsPage.handleTransfer t true (.resolved ⟨false, transferData⟩) planetsApi
      spacecraftsApi).1.isTransferring = false ∧
    (ConstructionPage.handleSubmit s (.resolved ⟨false, data⟩)).1.isSubmitting = true ∧
    (ConstructionPage.handleSubmit s (.resolved ⟨false, data⟩)).2.getLast? =
      some (.navigate "/spacecrafts") := by
  have hv := ConstructionPage.not_bad_of_keys_eq_nil s hvalid
  rw [ConstructionPage.handleSubmit_valid_success s data hv]
  refine ⟨?_, rfl, rfl⟩
  rcases planetsApi with pr | _ <;> rcases spacecraftsApi with sr | _
  · rw [PlanetsPage.handleTransfer_refetched t spacecraft targetPlanet transferData pr sr
      hready]
  · rw [PlanetsPage.handleTransfer_refetch_rejected t spacecraft targetPlanet transferData _ _
      hready (Or.inr rfl)]
  · rw [PlanetsPage.handleTransfer_refetch_rejected t spacecraft targetPlanet transferData _ _
      hready (Or.inl rfl)]
  · rw [PlanetsPage.handleTransfer_refetch_rejected t spacecraft targetPlanet transferData _ _
      hready (Or.inl rfl)]

/-- Witness of C15, amended: `Ark` is built, and `Ark` is sent to planet 2. -/
theorem flags_after_success_witness :
    (ConstructionPage.validateForm { name := "Ark", capacity := "12", description := "d" }).keys
      = [] ∧
    PlanetsPage.transferReady readySelection shipA venus ∧
    (PlanetsPage.handleTransfer readySelection true (.resolved ⟨false, none⟩)
      (.resolved ⟨false, some [venus]⟩)
      (.resolved ⟨false, some [shipB]⟩)).1.isTransferring = false :=
  ⟨by decide, by decide,
    (flags_after_success { name := "Ark", capacity := "12", description := "d" } none
      readySelection shipA venus none (.resolved ⟨false, some [venus]⟩)
      (.resolved ⟨false, some [shipB]⟩) (by decide) (by decide)).1⟩

/-! ## Properties: spacecraft stationed at a planet -/

/-- Comparing two mantissas scaled to the smaller exponent is comparing the
rationals `m · 2^e` and `n · 2^f`. -/
theorem JSNumber.scaled_eq_iff (m n : Nat) (e f : Int) :
    m * 2 ^ (e - min e f).toNat = n * 2 ^ (f - min e f).toNat ↔
      (m : ℚ) * 2 ^ e = (n : ℚ) * 2 ^ f := by
  have he : 0 ≤ e - min e f := by have := min_le_left e f; omega
  have hf : 0 ≤ f - min e f := by have := min_le_right e f; omega
  have h2 : (2 : ℚ) ≠ 0 := by norm_num
  have hk : (2 : ℚ) ^ (min e f) ≠ 0 := zpow_ne_zero _ h2
  have em : (m : ℚ) * 2 ^ e = ((m * 2 ^ (e - min e f).toNat : Nat) : ℚ) * 2 ^ (min e f) := by
    have : e = (e - min e f) + min e f := by omega
    conv_lhs => rw [this, zpow_add₀ h2]
    rw [Nat.cast_mul, Nat.cast_pow, Nat.cast_ofNat, ← zpow_natCast, Int.toNat_of_nonneg he,
      mul_assoc]
  have en : (n : ℚ) * 2 ^ f = ((n * 2 ^ (f - min e f).toNat : Nat) : ℚ) * 2 ^ (min e f) := by
    have : f = (f - min e f) + min e f := by omega
    conv_lhs => rw [this, zpow_add₀ h2]
    rw [Nat.cast_mul, Nat.cast_pow, Nat.cast_ofNat, ← zpow_natCast, Int.toNat_of_nonneg hf,
      mul_assoc]
  rw [em, en]
  constructor
  · intro h
    rw [h]
  · intro h
    exact_mod_cast mul_right_cancel₀ hk h

theorem JSNumber.strictEq_fin_iff (a b : Bool) (m n : Nat) (e f : Int) :
    (JSNumber.fin a m e).strictEq (.fin b n f) = true ↔
      (m = 0 ∧ n = 0) ∨ (a = b ∧ (m : ℚ) * 2 ^ e = (n : ℚ) * 2 ^ f) := by
  rw [← JSNumber.scaled_eq_iff]
  simp [JSNumber.strictEq]

/-- Strict equality is symmetric. -/
theorem JSNumber.strictEq_symm (x y : JSNumber) (h : x.strictEq y = true) :
    y.strictEq x = true := by
  cases x with
  | nan => simp [JSNumber.strictEq] at h
  | inf a =>
      cases y with
      | inf b => simp [JSNumber.strictEq] at h ⊢; exact h.symm
      | nan => simp [JSNumber.strictEq] at h
      | fin b n f => simp [JSNumber.strictEq] at h
  | fin a m e =>
      cases y with
      | inf b => simp [JSNumber.strictEq] at h
      | nan => simp [JSNumber.strictEq] at h
      | fin b n f =>
          rw [JSNumber.strictEq_fin_iff] at h ⊢
          rcases h with ⟨h1, h2⟩ | ⟨h1, h2⟩
          · exact Or.inl ⟨h2, h1⟩
          · exact Or.inr ⟨h1.symm, h2.symm⟩

/-- Two numbers strictly equal to a third are strictly equal. -/
theorem JSNumber.strictEq_trans (x y z : JSNumber) (hxy : x.strictEq y = true)
    (hyz : y.strictEq z = true) : x.strictEq z = true := by
  have h2 : (2 : ℚ) ≠ 0 := by norm_num
  cases y with
  | nan => cases x <;> simp [JSNumber.strictEq] at hxy
  | inf b =>
      cases x with
      | inf a =>
          cases z with
          | inf c =>
              simp [JSNumber.strictEq] at hxy hyz ⊢
              exact hxy.trans hyz
          | nan => simp [JSNumber.strictEq] at hyz
          | fin c p g => simp [JSNumber.strictEq] at hyz
      | nan => simp [JSNumber.strictEq] at hxy
      | fin a m e => simp [JSNumber.strictEq] at hxy
  | fin b n f =>
      cases x with
      | inf a => simp [JSNumber.strictEq] at hxy
      | nan => simp [JSNumber.strictEq] at hxy
      | fin a m e =>
          cases z with
          | inf c => simp [JSNumber.strictEq] at hyz
          | nan => simp [JSNumber.strictEq] at hyz
          | fin c p g =>
              rw [JSNumber.strictEq_fin_iff] at hxy hyz ⊢
              rcases hxy with ⟨h1, h1'⟩ | ⟨h1, h1'⟩ <;> rcases hyz with ⟨k1, k1'⟩ | ⟨k1, k1'⟩
              · exact Or.inl ⟨h1, k1'⟩
              · left
                refine ⟨h1, ?_⟩
                rw [h1', Nat.cast_zero, zero_mul] at k1'
                have := (mul_eq_zero.mp k1'.symm).resolve_right (zpow_ne_zero _ h2)
                exact_mod_cast this
              · left
                refine ⟨?_, k1'⟩
                rw [k1, Nat.cast_zero, zero_mul] at h1'
                have := (mul_eq_zero.mp h1').resolve_right (zpow_ne_zero _ h2)
                exact_mod_cast this
              · exact Or.inr ⟨h1.trans k1, h1'.trans k1'⟩

namespace PlanetsPage

/-- Among planets whose ids differ pairwise, at most one has a given id. -/
theorem at_most_one_planet_at (planets : List Planet) (location : JSNumber)
    (hd : planets.Pairwise fun p q => p.id.strictEq q.id = false) :
    (planets.filter fun p => location.strictEq p.id).length ≤ 1 := by
  induction planets with
  | nil => simp
  | cons p ps ih =>
      rw [List.pairwise_cons] at hd
      by_cases hp : location.strictEq p.id = true
      · have hnone : ∀ q ∈ ps, ¬(location.strictEq q.id = true) := by
          intro q hq hlq
          have hpq := JSNumber.strictEq_trans _ _ _ (JSNumber.strictEq_symm _ _ hp) hlq
          rw [hd.1 q hq] at hpq
          exact absurd hpq (by decide)
        rw [List.filter_cons, if_pos hp, List.filter_eq_nil_iff.mpr hnone]
        simp
      · rw [List.filter_cons, if_neg hp]
        exact ih hd.2

theorem sum_map_indicator (planets : List Planet) (q : Planet → Bool) :
    (planets.map fun p => if q p then 1 else 0).sum = (planets.filter q).length := by
  induction planets with
  | nil => rfl
  | cons p ps ih =>
      rw [List.map_cons, List.sum_cons, ih, List.filter_cons]
      cases q p <;> simp [Nat.add_comm]

/-- Summed over planets whose ids differ pairwise, the numbers of spacecraft
stationed do not exceed the length of the fleet. -/
theorem sum_stationed_le (planets : List Planet) (fleet : List Spacecraft)
    (hd : planets.Pairwise fun p q => p.id.strictEq q.id = false) :
    (planets.map fun p =>
      (fleet.filter fun x => x.currentLocation.strictEq p.id).length).sum ≤ fleet.length := by
  induction fleet with
  | nil => simp
  | cons x t ih =>
      have hsplit : (planets.map fun p =>
          ((x :: t).filter fun y => y.currentLocation.strictEq p.id).length) =
          planets.map fun p =>
            (if x.currentLocation.strictEq p.id then 1 else 0) +
              (t.filter fun y => y.currentLocation.strictEq p.id).length := by
        apply List.map_congr_left
        intro p _
        rw [List.filter_cons]
        cases x.currentLocation.strictEq p.id <;> simp [Nat.add_comm]
      rw [hsplit, List.sum_map_add, sum_map_indicator, List.length_cons]
      have h1 := at_most_one_planet_at planets x.currentLocation hd
      omega

theorem getSpacecraftsAtPlanet_of_loaded (s : State) (fleet : List Spacecraft)
    (planetId : JSNumber) (hs : s.spacecrafts = some fleet) :
    getSpacecraftsAtPlanet s planetId =
      fleet.filter fun x => x.currentLocation.strictEq planetId := by
  unfold getSpacecraftsAtPlanet
  rw [hs]

/-- C21: `getSpacecraftsAtPlanet` returns the loaded spacecraft whose
`currentLocation` is strictly equal to the planet id, each as often as in the list
and in the list's order, and returns the empty list while `spacecrafts` is `null`.
For planets whose ids differ pairwise, a spacecraft is listed on at most one planet
card, and the stationed counts of the cards add up to at most the length of the
spacecraft list (and to zero while `spacecrafts` is `null`). -/
theorem getSpacecraftsAtPlanet_selects_by_location (s : State) (fleet : List Spacecraft)
    (planets : List Planet) (planetId : JSNumber) (spacecraft : Spacecraft)
    (hs : s.spacecrafts = some fleet) (hp : s.planets = some planets)
    (hd : planets.Pairwise fun p q => p.id.strictEq q.id = false) :
    getSpacecraftsAtPlanet s planetId =
      fleet.filter (fun x => x.currentLocation.strictEq planetId) ∧
    (∀ x, x ∈ getSpacecraftsAtPlanet s planetId ↔
      x ∈ fleet ∧ x.currentLocation.strictEq planetId = true) ∧
    (∀ x, x.currentLocation.strictEq planetId = true →
      (getSpacecraftsAtPlanet s planetId).count x = fleet.count x) ∧
    (getSpacecraftsAtPlanet s planetId).Sublist fleet ∧
    getSpacecraftsAtPlanet { s with spacecrafts := none } planetId = [] ∧
    planetCards s = planets.map (fun planet => (planet, getSpacecraftsAtPlanet s planet.id)) ∧
    ((planetCards s).filter fun card => decide (spacecraft ∈ card.2)).length ≤ 1 ∧
    ((planetCards s).map fun card => card.2.length).sum ≤ fleet.length ∧
    ((planetCards { s with spacecrafts := none }).map fun card => card.2.length).sum = 0 := by
  have hcards : planetCards s =
      planets.map (fun planet => (planet, getSpacecraftsAtPlanet s planet.id)) := by
    unfold planetCards
    rw [hp]
  rw [getSpacecraftsAtPlanet_of_loaded s fleet planetId hs]
  refine ⟨rfl, ?_, ?_, List.filter_sublist fleet, rfl, hcards, ?_, ?_, ?_⟩
  · intro x
    exact List.mem_filter
  · intro x hx
    exact List.count_filter hx
  · rw [hcards, List.filter_map, List.length_map]
    have hsub : (planets.filter
        ((fun card : Planet × List Spacecraft => decide (spacecraft ∈ card.2)) ∘
          fun planet => (planet, getSpacecraftsAtPlanet s planet.id))).Sublist
        (planets.filter fun p => spacecraft.currentLocation.strictEq p.id) := by
      apply List.monotone_filter_right
      intro p hmem
      have hmem' : spacecraft ∈ getSpacecraftsAtPlanet s p.id := by simpa using hmem
      rw [getSpacecraftsAtPlanet_of_loaded s fleet p.id hs] at hmem'
      exact (List.mem_filter.mp hmem').2
    exact le_trans hsub.length_le
      (at_most_one_planet_at planets spacecraft.currentLocation hd)
  · rw [hcards, List.map_map]
    have hfun : ((fun card : Planet × List Spacecraft => card.2.length) ∘
        fun planet => (planet, getSpacecraftsAtPlanet s planet.id)) =
        fun p => (fleet.filter fun x => x.currentLocation.strictEq p.id).length := by
      funext p
      show (getSpacecraftsAtPlanet s p.id).length = _
      rw [getSpacecraftsAtPlanet_of_loaded s fleet p.id hs]
    rw [hfun]
    exact sum_stationed_le planets fleet hd
  · have hnone : planetCards { s with spacecrafts := none } =
        planets.map fun planet => (planet, []) := by
      unfold planetCards
      simp only [hp]
      rfl
    rw [hnone, List.map_map]
    exact List.sum_eq_zero (by simp)

/-- Witness of C21: the planets `[mars, venus]` with `shipA` on the first and
`shipB` on the second. -/
theorem getSpacecraftsAtPlanet_selects_by_location_witness :
    samePlanetSelection.spacecrafts = some [shipA, shipB] ∧
    samePlanetSelection.planets = some [mars, venus] ∧
    ([mars, venus].Pairwise fun p q => p.id.strictEq q.id = false) ∧
    getSpacecraftsAtPlanet samePlanetSelection mars.id = [shipA] ∧
    planetCards samePlanetSelection = [(mars, [shipA]), (venus, [shipB])] :=
  ⟨rfl, rfl, by decide,
    (getSpacecraftsAtPlanet_selects_by_location samePlanetSelection [shipA, shipB]
      [mars, venus] mars.id shipA rfl rfl (by decide)).1.trans (by decide),
    (getSpacecraftsAtPlanet_selects_by_location samePlanetSelection [shipA, shipB]
      [mars, venus] mars.id shipA rfl rfl (by decide)).2.2.2.2.2.1.trans (by decide)⟩

end PlanetsPage

end SpaceTravel
